import Mathlib

/-!
A shallow embedding of the slow_lox tree-walking Lox interpreter
(src/scanner.rs, src/parser.rs, src/resolver.rs, src/interpreter.rs,
src/interpreter/environment.rs, src/primitive.rs, src/stmt.rs, src/expr.rs),
together with theorems settling the specification claims about it.

Modelling conventions, used throughout:

* Rust `Rc<RefCell<Environment>>` cells are modelled by an arena: a `Store`
  (list of `Environment` frames) plus `Nat` indices.  Allocating a fresh cell
  appends to the store; `borrow`/`borrow_mut` become reads/writes at an index.
  An out-of-range index or an `unwrap` of `None` models a Rust panic and is
  mapped to the distinguished outcome `Res.crashed`.
* Loops and recursion are driven by an explicit `fuel : Nat`; exhaustion is
  the distinguished outcome `Res.noFuel`.  All functions are structurally
  recursive in the fuel, so concrete runs reduce definitionally.
* Rust `f64` numbers are modelled exactly by `LoxNum`, an unnormalised
  rational (integer numerator/denominator).  All arithmetic the interpreter
  performs is exact on the values arising in this development, so the model
  abstracts only floating-point rounding and the decimal rendering of
  non-integral numbers, neither of which any claim depends on.
* Rust `HashMap<String, Value>` is modelled by an association list with
  insert-overwrite semantics; the source never iterates over these maps, so
  only `insert`/`get`/`contains_key` behaviour is observable.
* The output sink is the list of strings printed by `Stmt::Print`
  (`println!("{}", value.primitive)`); stray debug `println!` calls in the
  `Get`/`Set` arms of `interpret_expr` are not part of that sink.
-/

namespace SlowLox

/-- Modelled from the spec: the file `token.rs` is not present in the source
tree (only its users are).  Spec section 6 fixes the closed enumeration of
token kinds. -/
inductive TokenType where
  | LEFT_PAREN | RIGHT_PAREN | LEFT_BRACE | RIGHT_BRACE | COMMA | DOT
  | MINUS | PLUS | SEMICOLON | SLASH | STAR | QUESTION | COLON
  | BANG | BANG_EQUAL | EQUAL | EQUAL_EQUAL
  | GREATER | GREATER_EQUAL | LESS | LESS_EQUAL
  | IDENTIFIER | STRING | NUMBER
  | AND | CLASS | ELSE | FALSE | FUN | FOR | IF | NIL | OR | PRINT
  | RETURN | SUPER | THIS | TRUE | VAR | WHILE | BREAK | EOF
deriving DecidableEq, BEq, Repr

/-- Modelled from the spec: `token.rs` is missing; spec section 3 gives
`Token = {kind, lexeme, line}` and the constructor `Token::new` is evident
from every use site in the source. -/
structure Token where
  token_type : TokenType
  lexeme : String
  line : Nat
deriving DecidableEq, BEq, Repr

/-- Token::new (token.rs, modelled from the spec and its use sites). -/
def Token.new (token_type : TokenType) (lexeme : String) (line : Nat) : Token :=
  ⟨token_type, lexeme, line⟩

/-- Exact model of a Rust `f64` number as an unnormalised rational.  The
interpreter's arithmetic (`+ - * /`, comparisons, equality, zero test) is
modelled by exact rational arithmetic; floating-point rounding is abstracted
away.  The denominator is nonzero for every value the embedding constructs. -/
structure LoxNum where
  num : Int
  den : Int
deriving DecidableEq, Repr

/-- Numeric equality (Rust `f64::eq`), as cross-multiplication. -/
def LoxNum.beq (a b : LoxNum) : Bool :=
  a.num * b.den == b.num * a.den

/-- Rust `left + right` on `f64`. -/
def LoxNum.add (a b : LoxNum) : LoxNum :=
  ⟨a.num * b.den + b.num * a.den, a.den * b.den⟩

/-- Rust `left - right` on `f64`. -/
def LoxNum.sub (a b : LoxNum) : LoxNum :=
  ⟨a.num * b.den - b.num * a.den, a.den * b.den⟩

/-- Rust `left * right` on `f64`. -/
def LoxNum.mul (a b : LoxNum) : LoxNum :=
  ⟨a.num * b.num, a.den * b.den⟩

/-- Rust `left / right` on `f64` (only reached behind the interpreter's
zero-divisor guard). -/
def LoxNum.div (a b : LoxNum) : LoxNum :=
  ⟨a.num * b.den, a.den * b.num⟩

/-- Rust unary `-` on `f64`. -/
def LoxNum.neg (a : LoxNum) : LoxNum :=
  ⟨-a.num, a.den⟩

/-- Rust `a < b` on `f64`, sign-safe for unnormalised representations. -/
def LoxNum.blt (a b : LoxNum) : Bool :=
  decide (0 < (b.num * a.den - a.num * b.den) * (a.den * b.den))

/-- Rust `a <= b` on `f64`, sign-safe for unnormalised representations. -/
def LoxNum.ble (a b : LoxNum) : Bool :=
  decide (0 ≤ (b.num * a.den - a.num * b.den) * (a.den * b.den))

/-- The literal `0.0` the divide-by-zero guard compares against. -/
def LoxNum.zero : LoxNum := ⟨0, 1⟩

/-- Rust `Display` for `f64` (`{}`), faithful on integral values; the decimal
rendering of non-integral values is abstracted (no claim exercises it). -/
def LoxNum.display (n : LoxNum) : String :=
  if n.den != 0 && n.num % n.den == 0 then toString (n.num / n.den)
  else toString n.num ++ "/" ++ toString n.den

/-- Model of `str::parse::<f64>()` restricted to the decimal literal forms
the scanner produces (`digits` or `digits.digits`); exact, no rounding. -/
def digitsVal (cs : List Char) (acc : Nat) : Option Nat :=
  match cs with
  | [] => some acc
  | c :: rest => if c.isDigit then digitsVal rest (acc * 10 + (c.toNat - 48)) else none

/-- Parse a decimal number lexeme exactly (model of `lexeme.parse::<f64>()`).
Returns `none` where the Rust parse would return `Err` (and the interpreter's
`.unwrap()` would panic). -/
def parseNumber (s : String) : Option LoxNum :=
  match s.data.span (fun c => c != '.') with
  | (intPart, rest) =>
    if intPart.isEmpty then none
    else
      match rest with
      | [] => (digitsVal intPart 0).map (fun n => ⟨(n : Int), 1⟩)
      | _ :: frac =>
        if frac.isEmpty then none
        else
          match digitsVal intPart 0, digitsVal frac 0 with
          | some i, some f =>
            some ⟨((i * 10 ^ frac.length + f : Nat) : Int), ((10 ^ frac.length : Nat) : Int)⟩
          | _, _ => none

/-- Expression AST (`expr.rs`).  The named payload structs of the source
(`Binary { left, operator, right }`, `GetExpr { expr, name }`, ...) are
inlined as constructor fields with the same field names.  Structural equality
(`BEq`, mirroring a derived `PartialEq`) is what keys the interpreter's
resolution map `HashMap<Expr, usize>`. -/
inductive Expr where
  | Binary (left : Expr) (operator : Token) (right : Expr)
  | Grouping (expression : Expr)
  | Literal (value : Token)
  | Unary (operator : Token) (right : Expr)
  | Logical (left : Expr) (operator : Token) (right : Expr)
  | Ternary (condition : Expr) (then_branch : Expr) (else_branch : Expr)
  | Variable (name : Token)
  | Assign (name : Token) (value : Expr)
  | Call (callee : Expr) (paren : Token) (arguments : List Expr)
  | Get (expr : Expr) (name : Token)
  | Set (expr : Expr) (name : Token) (value : Expr)
deriving Repr

mutual
/-- Structural equality of expressions: the derived `PartialEq` of `Expr`,
written out field by field. -/
def exprBEq (a b : Expr) : Bool :=
  match a, b with
  | .Binary l o r, .Binary l2 o2 r2 => exprBEq l l2 && o == o2 && exprBEq r r2
  | .Grouping e, .Grouping e2 => exprBEq e e2
  | .Literal v, .Literal v2 => v == v2
  | .Unary o r, .Unary o2 r2 => o == o2 && exprBEq r r2
  | .Logical l o r, .Logical l2 o2 r2 => exprBEq l l2 && o == o2 && exprBEq r r2
  | .Ternary c t e, .Ternary c2 t2 e2 => exprBEq c c2 && exprBEq t t2 && exprBEq e e2
  | .Variable n, .Variable n2 => n == n2
  | .Assign n v, .Assign n2 v2 => n == n2 && exprBEq v v2
  | .Call c p args, .Call c2 p2 args2 => exprBEq c c2 && p == p2 && exprListBEq args args2
  | .Get e n, .Get e2 n2 => exprBEq e e2 && n == n2
  | .Set e n v, .Set e2 n2 v2 => exprBEq e e2 && n == n2 && exprBEq v v2
  | _, _ => false
termination_by structural a

/-- Structural equality of expression lists (for `Call` arguments). -/
def exprListBEq (a b : List Expr) : Bool :=
  match a, b with
  | [], [] => true
  | x :: xs, y :: ys => exprBEq x y && exprListBEq xs ys
  | _, _ => false
termination_by structural a
end

instance : BEq Expr := ⟨exprBEq⟩

/-- Statement AST (`stmt.rs`). -/
inductive Stmt where
  | Expr (e : Expr)
  | Print (e : Expr)
  | Var (name : Token) (initializer : Option Expr)
  | Assign (name : Token) (e : Expr)
  | Block (stmts : List Stmt)
  | If (condition : Expr) (then_branch : Stmt) (else_branch : Option Stmt)
  | While (condition : Expr) (body : Stmt)
  | Break
  | Function (name : Token) (params : List Token) (body : List Stmt)
  | Class (name : Token) (methods : List Stmt)
  | Return (keyword : Token) (value : Option Expr)
deriving Repr

/-- Function value (`primitive.rs`, `struct Callable`).  The captured
`closure : Rc<RefCell<Environment>>` is an arena index into the `Store`. -/
structure Callable where
  arity : Nat
  name : Token
  params : List Token
  body : List Stmt
  closure : Nat
deriving Repr

/-- Callable::new (primitive.rs): `arity` is `params.len()`; the closure cell
is shared (`Rc` clone), not copied. -/
def Callable.new (name : Token) (params : List Token) (body : List Stmt)
    (closure : Nat) : Callable :=
  ⟨params.length, name, params, body, closure⟩

/-- Class descriptor (`primitive.rs`, `struct Class`). -/
structure Class where
  name : Token
  methods : List Stmt
deriving Repr

/-- Class::new (primitive.rs). -/
def Class.new (name : Token) (methods : List Stmt) : Class :=
  ⟨name, methods⟩

mutual
/-- Runtime values (`primitive.rs`, `enum Primitive`). -/
inductive Primitive where
  | Number (n : LoxNum)
  | Boolean (b : Bool)
  | Nil
  | String (s : String)
  | Callable (c : Callable)
  | Class (c : SlowLox.Class)
  | Instance (i : Instance)

/-- Instance (`primitive.rs`, `struct Instance`): a class descriptor plus a
by-value field map (`fields: HashMap<String, Value>`).  The Rust struct has no
interior mutability, so cloning a `Value` clones the whole field map. -/
inductive Instance where
  | mk (cls : SlowLox.Class) (fields : List (String × Value))

/-- Value (`expr.rs`, `struct Value`): a primitive plus the token it came
from. -/
inductive Value where
  | mk (primitive : Primitive) (token : Token)
end

/-- Projection for the `primitive` field of `Value`. -/
def Value.primitive : Value → Primitive
  | .mk p _ => p

/-- Projection for the `token` field of `Value`. -/
def Value.token : Value → Token
  | .mk _ t => t

/-- Projection for the `class` field of `Instance` (renamed: `class` is a
reserved word). -/
def Instance.cls : Instance → SlowLox.Class
  | .mk c _ => c

/-- Projection for the `fields` field of `Instance`. -/
def Instance.fields : Instance → List (String × Value)
  | .mk _ f => f

/-- Instance::new (primitive.rs): empty field map. -/
def Instance.new (cls : SlowLox.Class) : Instance :=
  ⟨cls, []⟩

/-- HashMap::insert on a `String`-keyed map (overwrite semantics). -/
def mapInsert (m : List (String × Value)) (k : String) (v : Value) :
    List (String × Value) :=
  (k, v) :: m.filter (fun p => p.1 != k)

/-- HashMap::get on a `String`-keyed map. -/
def mapGet (m : List (String × Value)) (k : String) : Option Value :=
  (m.find? (fun p => p.1 == k)).map (fun p => p.2)

/-- HashMap::contains_key on a `String`-keyed map. -/
def mapContains (m : List (String × Value)) (k : String) : Bool :=
  (mapGet m k).isSome

/-- Display for Primitive (primitive.rs).  Note the `String` case renders the
contents wrapped in double quotes: `write!(f, "\"{}\"", string)`. -/
def Primitive.display (p : Primitive) :=
  match p with
  | .Number n => n.display
  | .Boolean b => if b then "true" else "false"
  | .Nil => "nil"
  | .String s => "\"" ++ s ++ "\""
  | .Callable c =>
    "<fn> " ++ c.name.lexeme ++ "(" ++ String.intercalate ", " (c.params.map Token.lexeme) ++ ")"
  | .Class c => c.name.lexeme
  | .Instance i => i.cls.name.lexeme ++ " instance"

/-- InterpretError (interpreter.rs): message, offending token, and the
optional payload value that the `return` machinery smuggles through the error
channel. -/
structure InterpretError where
  message : String
  token : Token
  value : Option Value

/-- InterpretError::new (interpreter.rs). -/
def InterpretError.new (message : String) (token : Token) : InterpretError :=
  ⟨message, token, none⟩

/-- InterpretError::with_value (interpreter.rs). -/
def InterpretError.with_value (message : String) (token : Token) (value : Value) :
    InterpretError :=
  ⟨message, token, some value⟩

/-- Outcome of running an embedded fragment: a normal return, an error on the
source's `Result` channel, a Rust panic (`crashed`), or fuel exhaustion of
the embedding (`noFuel`, an artifact of the fuelled model only). -/
inductive Res (ε : Type) (α : Type) where
  | ok (a : α)
  | error (e : ε)
  | crashed
  | noFuel

/-- True exactly when the outcome is an error on the `Result` channel. -/
def Res.isError {ε α : Type} : Res ε α → Bool
  | .error _ => true
  | _ => false

/-- Environment (`interpreter/environment.rs`): a name-to-value map plus an
optional link to the enclosing environment.  The link is an arena index
(model of `Option<Rc<RefCell<Environment>>>`). -/
structure Environment where
  enclosing : Option Nat
  values : List (String × Value)

/-- The arena of environment cells: index `i` models the `i`-th allocated
`Rc<RefCell<Environment>>`. -/
abbrev Store := List Environment

/-- Dereference an arena index (a `borrow` of the cell); `none` models a
dangling index, which never occurs in reachable states. -/
def storeGet (store : Store) (i : Nat) : Option Environment :=
  store.get? i

/-- Write back through an arena index (a `borrow_mut` of the cell). -/
def storeSet (store : Store) (i : Nat) (env : Environment) : Store :=
  store.set i env

/-- Environment::global (environment.rs): no enclosing, empty map. -/
def Environment.global : Environment :=
  ⟨none, []⟩

/-- Environment::define (environment.rs): insert into the own map of this
frame. -/
def Environment.define (self : Environment) (name : String) (value : Value) :
    Environment :=
  { self with values := mapInsert self.values name value }

/-- The `for _ in 0..distance` loop inside `Environment::ancestor`: each
iteration replaces the frame by a clone of the frame its `enclosing` link
points at, panicking (`none`) on `unwrap` of `None`. -/
def ancestorLoop (store : Store) (env : Environment) : Nat → Option Environment
  | 0 => some env
  | k + 1 =>
    match env.enclosing with
    | none => none
    | some r =>
      match storeGet store r with
      | none => none
      | some e => ancestorLoop store e k

/-- Environment::ancestor (environment.rs).  Starts from a clone of
`self.enclosing.unwrap()` and walks `distance` further `enclosing` links;
`none` models the panics of the two `unwrap()`s.  The Rust function wraps the
resulting clone in a fresh `Rc::new(RefCell::new(..))` that is not part of
any chain, so writes into the returned cell (see `assign_at`) are lost; reads
of it are faithful, hence the model returns the frame by value. -/
def Environment.ancestor (store : Store) (self : Environment) (distance : Nat) :
    Option Environment :=
  match self.enclosing with
  | none => none
  | some r =>
    match storeGet store r with
    | none => none
    | some env => ancestorLoop store env distance

/-- Environment::get (environment.rs): if the own map of this frame contains
`name`, answer from it (whatever `distance` says); otherwise recurse, with the
same `distance`, into `ancestor(distance)`.  `crashed` models the panic
inside `ancestor`. -/
def Environment.get (fuel : Nat) (store : Store) (self : Environment)
    (distance : Nat) (name : String) : Res Empty (Option Value) :=
  match fuel with
  | 0 => .noFuel
  | fuel + 1 =>
    if mapContains self.values name then .ok (mapGet self.values name)
    else
      match Environment.ancestor store self distance with
      | none => .crashed
      | some env => Environment.get fuel store env distance name

/-- Environment::get_global (environment.rs): walk clones of `enclosing`
links up to the root frame, then answer via `get 0` there. -/
def Environment.get_global (fuel : Nat) (store : Store) (self : Environment)
    (name : String) : Res Empty (Option Value) :=
  match fuel with
  | 0 => .noFuel
  | fuel + 1 =>
    match self.enclosing with
    | none => Environment.get fuel store self 0 name
    | some r =>
      match storeGet store r with
      | none => .crashed
      | some env => Environment.get_global fuel store env name

/-- Environment::assign (environment.rs): the only write path that mutates
the real chain (it recurses through the `Rc` cells themselves, so the model
recurses on arena indices and updates the store).  Unbound names give the
source's (truncated) "Undefined variable '" error. -/
def Environment.assign (fuel : Nat) (store : Store) (ref : Nat) (name : String)
    (value : Value) : Res InterpretError Store :=
  match fuel with
  | 0 => .noFuel
  | fuel + 1 =>
    match storeGet store ref with
    | none => .crashed
    | some env =>
      if mapContains env.values name then
        .ok (storeSet store ref { env with values := mapInsert env.values name value })
      else
        match env.enclosing with
        | some r => Environment.assign fuel store r name value
        | none => .error (InterpretError.new "Undefined variable '" value.token)

/-- Environment::assign_at (environment.rs):
`self.ancestor(distance).borrow_mut().values.insert(name, value)`.  The
insert lands in the fresh cell `ancestor` allocated around a clone, so the
store is unchanged; the only observable effect is the possible panic inside
`ancestor` (`none`).  The `name`/`value` arguments are kept for fidelity. -/
def Environment.assign_at (store : Store) (self : Environment) (distance : Nat)
    (name : String) (value : Value) : Option Unit :=
  match Environment.ancestor store self distance with
  | none => none
  | some _ =>
    let _ := name
    let _ := value
    some ()

/-- Environment::assign_global (environment.rs): walks clones of `enclosing`
links to the root and inserts into that local clone, which is then dropped —
the store is unchanged and the write is lost.  The walk itself is modelled for
its possible panic on a dangling index. -/
def Environment.assign_global (fuel : Nat) (store : Store) (self : Environment)
    (name : String) (value : Value) : Res Empty Unit :=
  match fuel with
  | 0 => .noFuel
  | fuel + 1 =>
    match self.enclosing with
    | none =>
      let _ := name
      let _ := value
      .ok ()
    | some r =>
      match storeGet store r with
      | none => .crashed
      | some env => Environment.assign_global fuel store env name value

/-- The resolution map `locals: HashMap<Expr, usize>` of the interpreter,
keyed by structural equality of expressions (the derived `PartialEq`).
Insert prepends; lookup takes the most recent entry, modelling overwrite. -/
abbrev Locals := List (Expr × Nat)

/-- HashMap::get on the resolution map (Interpreter::get_local). -/
def Interpreter.get_local (locals : Locals) (expr : Expr) : Option Nat :=
  (locals.find? (fun p => p.1 == expr)).map (fun p => p.2)

/-- HashMap::insert on the resolution map (Interpreter::resolve). -/
def Interpreter.resolve (locals : Locals) (expr : Expr) (depth : Nat) : Locals :=
  (expr, depth) :: locals

/-- The mutable pieces of `Interpreter` (minus the read-only resolution map)
together with the output sink: the arena of environment cells, the index of
the current environment, and the lines printed so far by `Stmt::Print`. -/
structure InterpState where
  store : Store
  environment : Nat
  output : List String

/-- Interpreter::define (interpreter.rs): define in the current environment
frame.  (No-op on a dangling index, which never occurs in reachable
states.) -/
def Interpreter.define (s : InterpState) (name : String) (value : Value) :
    InterpState :=
  match storeGet s.store s.environment with
  | some env => { s with store := storeSet s.store s.environment (env.define name value) }
  | none => s

/-- Interpreter::new_environment (interpreter.rs): allocate a fresh
environment cell enclosing the current one and make it current. -/
def Interpreter.new_environment (s : InterpState) : InterpState :=
  { s with store := s.store ++ [⟨some s.environment, []⟩], environment := s.store.length }

/-- Interpreter::is_truthy (interpreter.rs): `Nil` and `Boolean(false)` are
false, everything else is true. -/
def is_truthy (value : Value) : Bool :=
  match value.primitive with
  | .Nil => false
  | .Boolean b => b
  | _ => true

/-- The test `condition.primitive == Primitive::Boolean(true)` used by the
`If` and `While` arms of `Interpreter::interpret`.  The derived `PartialEq`
applied against the comparand `Boolean(true)` reduces to exactly this
match. -/
def eqBooleanTrue (p : Primitive) : Bool :=
  match p with
  | .Boolean b => b
  | _ => false

/-- Interpreter::to_number (interpreter.rs). -/
def to_number (value : Value) : Except InterpretError LoxNum :=
  match value.primitive with
  | .Number n => .ok n
  | _ => .error (InterpretError.new ("Expected number, got " ++ value.primitive.display) value.token)

/-- Interpreter::is_equal (interpreter.rs): structural equality on the four
primitive kinds, `false` for every other pairing. -/
def is_equal (left right : Value) : Bool :=
  match left.primitive, right.primitive with
  | .Nil, .Nil => true
  | .Boolean l, .Boolean r => l == r
  | .Number l, .Number r => LoxNum.beq l r
  | .String l, .String r => l == r
  | _, _ => false

/-- Instance::get (primitive.rs): a field read; missing fields are the
"Undefined property" runtime error. -/
def Instance.get (self : Instance) (name : Token) : Except InterpretError Value :=
  match mapGet self.fields name.lexeme with
  | some v => .ok v
  | none => .error (InterpretError.new ("Undefined property '" ++ name.lexeme ++ "'.") name)

/-- Instance::set (primitive.rs): insert into the field map of this (by
value) instance. -/
def Instance.set (self : Instance) (name : Token) (value : Value) : Instance :=
  ⟨self.cls, mapInsert self.fields name.lexeme value⟩

/-- Interpreter::look_up_var (interpreter.rs): consult the resolution map for
the whole expression; with a recorded distance use `Environment::get` at that
distance, otherwise `Environment::get_global`; a `None` result becomes the
"Undefined variable" runtime error. -/
def look_up_var (fuel : Nat) (locals : Locals) (s : InterpState) (name : Token)
    (expr : Expr) : Res InterpretError Value :=
  match storeGet s.store s.environment with
  | none => .crashed
  | some env =>
    match
      (match Interpreter.get_local locals expr with
       | some distance => Environment.get fuel s.store env distance name.lexeme
       | none => Environment.get_global fuel s.store env name.lexeme) with
    | .ok (some v) => .ok v
    | .ok none =>
      .error (InterpretError.new ("Undefined variable '" ++ name.lexeme ++ "'.") name)
    | .error e => e.elim
    | .crashed => .crashed
    | .noFuel => .noFuel

/-- Sequencing helper for the threaded interpreter results: propagate
errors, panics and fuel exhaustion, continue on `ok`. -/
def andThen {α β : Type} (r : Res InterpretError α × InterpState)
    (k : α → InterpState → Res InterpretError β × InterpState) :
    Res InterpretError β × InterpState :=
  match r with
  | (.ok a, s) => k a s
  | (.error e, s) => (.error e, s)
  | (.crashed, s) => (.crashed, s)
  | (.noFuel, s) => (.noFuel, s)

/-- The `nil` value `Callable::call` answers for a body that falls off the
end: `Token::new(TokenType::NIL, "nil", 0)`. -/
def nilReturnValue : Value :=
  ⟨.Nil, Token.new .NIL "nil" 0⟩

/-- The `for (i, arg) in args.iter().enumerate()` loop of `Callable::call`:
define each argument under `self.params[i]` in the current frame; `none`
models the index panic when there are more arguments than parameters (the
call-site arity check prevents it). -/
def bindParams (params : List Token) (args : List Value) (s : InterpState) :
    Option InterpState :=
  match args, params with
  | [], _ => some s
  | a :: restArgs, p :: restParams => bindParams restParams restArgs (Interpreter.define s p.lexeme a)
  | _ :: _, [] => none

/-- The `Binary` arm of `Interpreter::interpret_expr` (interpreter.rs) after
both operands are evaluated: a pure dispatch on the operator lexeme.  Every
arm of the source match either produces a value or an `InterpretError`
without touching the interpreter state. -/
def binaryEval (operator : Token) (left right : Value) : Except InterpretError Value :=
  match operator.lexeme with
  | "-" =>
    match left.primitive, right.primitive with
    | .Number l, .Number r => .ok ⟨.Number (LoxNum.sub l r), operator⟩
    | _, _ =>
      .error (InterpretError.new
        ("Operands must be two numbers: " ++ left.token.lexeme ++ " - " ++ right.token.lexeme)
        operator)
  | "*" =>
    match left.primitive, right.primitive with
    | .Number l, .Number r => .ok ⟨.Number (LoxNum.mul l r), operator⟩
    | _, _ =>
      .error (InterpretError.new
        ("Operands must be two numbers: " ++ left.token.lexeme ++ " * " ++ right.token.lexeme)
        operator)
  | "/" =>
    match left.primitive, right.primitive with
    | .Number l, .Number r =>
      if LoxNum.beq r LoxNum.zero then
        .error (InterpretError.new "Division by zero." operator)
      else .ok ⟨.Number (LoxNum.div l r), operator⟩
    | _, _ =>
      .error (InterpretError.new
        ("Operands must be two numbers: " ++ left.token.lexeme ++ " / " ++ right.token.lexeme)
        operator)
  | "+" =>
    match left.primitive, right.primitive with
    | .Number l, .Number r => .ok ⟨.Number (LoxNum.add l r), operator⟩
    | .String l, .String r => .ok ⟨.String (l ++ r), operator⟩
    | .String l, .Number r => .ok ⟨.String (l ++ r.display), operator⟩
    | .Number l, .String r => .ok ⟨.String (l.display ++ r), operator⟩
    | _, _ =>
      .error (InterpretError.new
        ("Operands must be two numbers or two strings: " ++ left.token.lexeme ++ " + " ++ right.token.lexeme)
        operator)
  | ">" =>
    match to_number left with
    | .error e => .error e
    | .ok l =>
      match to_number right with
      | .error e => .error e
      | .ok r => .ok ⟨.Boolean (LoxNum.blt r l), operator⟩
  | ">=" =>
    match to_number left with
    | .error e => .error e
    | .ok l =>
      match to_number right with
      | .error e => .error e
      | .ok r => .ok ⟨.Boolean (LoxNum.ble r l), operator⟩
  | "<" =>
    match to_number left with
    | .error e => .error e
    | .ok l =>
      match to_number right with
      | .error e => .error e
      | .ok r => .ok ⟨.Boolean (LoxNum.blt l r), operator⟩
  | "<=" =>
    match to_number left with
    | .error e => .error e
    | .ok l =>
      match to_number right with
      | .error e => .error e
      | .ok r => .ok ⟨.Boolean (LoxNum.ble l r), operator⟩
  | "!=" => .ok ⟨.Boolean (!(is_equal left right)), operator⟩
  | "==" => .ok ⟨.Boolean (is_equal left right), operator⟩
  | _ =>
    .error (InterpretError.new
      ("Operands must be two numbers or two strings: " ++ left.token.lexeme ++ " + " ++ right.token.lexeme)
      operator)

mutual
/-- Interpreter::interpret (interpreter.rs): execute one statement.  `return`
travels on the error channel as an `InterpretError` whose `value` is set;
`Stmt::Break` is `todo!()` in the source and panics. -/
def interpret (fuel : Nat) (locals : Locals) (stmt : Stmt) (s : InterpState) :
    Res InterpretError Unit × InterpState :=
  match fuel with
  | 0 => (.noFuel, s)
  | fuel + 1 =>
    match stmt with
    | .Return token expr =>
      match expr with
      | some e =>
        andThen (interpret_expr fuel locals e s) (fun value s =>
          (.error (InterpretError.with_value "Successful return" token value), s))
      | none =>
        (.error (InterpretError.with_value "Successful return" token
          ⟨.Nil, Token.new .NIL "nil" token.line⟩), s)
    | .Expr e => andThen (interpret_expr fuel locals e s) (fun _ s => (.ok (), s))
    | .Print e =>
      andThen (interpret_expr fuel locals e s) (fun v s =>
        (.ok (), { s with output := s.output ++ [v.primitive.display] }))
    | .Var token initializer =>
      match initializer with
      | some e =>
        andThen (interpret_expr fuel locals e s) (fun v s =>
          (.ok (), Interpreter.define s token.lexeme v))
      | none =>
        (.ok (), Interpreter.define s token.lexeme ⟨.Nil, Token.new .NIL "nil" token.line⟩)
    | .Assign token e =>
      andThen (interpret_expr fuel locals e s) (fun v s =>
        match Environment.assign fuel s.store s.environment token.lexeme v with
        | .ok store => (.ok (), { s with store := store })
        | .error err => (.error err, s)
        | .crashed => (.crashed, s)
        | .noFuel => (.noFuel, s))
    | .Block stmts =>
      let previous := s.environment
      match interpret_block fuel locals stmts (Interpreter.new_environment s) with
      | (.ok _, s2) => (.ok (), { s2 with environment := previous })
      | (.error e, s2) => (.error e, { s2 with environment := previous })
      | (.crashed, s2) => (.crashed, s2)
      | (.noFuel, s2) => (.noFuel, s2)
    | .If condition then_branch else_branch =>
      andThen (interpret_expr fuel locals condition s) (fun c s =>
        if eqBooleanTrue c.primitive then
          andThen (interpret fuel locals then_branch s) (fun _ s => (.ok (), s))
        else
          match else_branch with
          | some eb => andThen (interpret fuel locals eb s) (fun _ s => (.ok (), s))
          | none => (.ok (), s))
    | .While condition body =>
      andThen (interpret_expr fuel locals condition s) (fun c s =>
        if eqBooleanTrue c.primitive then
          andThen (interpret fuel locals body s) (fun _ s =>
            andThen (interpret fuel locals (.While condition body) s) (fun _ s =>
              (.ok (), s)))
        else (.ok (), s))
    | .Function token parameters body =>
      let callable := Callable.new token parameters body s.environment
      (.ok (), Interpreter.define s token.lexeme ⟨.Callable callable, token⟩)
    | .Class name methods =>
      let cls := Class.new name methods
      (.ok (), Interpreter.define s cls.name.lexeme ⟨.Class cls, name⟩)
    | .Break => (.crashed, s)
termination_by structural fuel

/-- Interpreter::interpret_block (interpreter.rs): run the statements in
order, stopping at the first non-`Ok` outcome. -/
def interpret_block (fuel : Nat) (locals : Locals) (stmts : List Stmt)
    (s : InterpState) : Res InterpretError Unit × InterpState :=
  match fuel with
  | 0 => (.noFuel, s)
  | fuel + 1 =>
    match stmts with
    | [] => (.ok (), s)
    | stmt :: rest =>
      andThen (interpret fuel locals stmt s) (fun _ s =>
        interpret_block fuel locals rest s)
termination_by structural fuel

/-- Interpreter::interpret_expr (interpreter.rs): evaluate one expression. -/
def interpret_expr (fuel : Nat) (locals : Locals) (expr : Expr) (s : InterpState) :
    Res InterpretError Value × InterpState :=
  match fuel with
  | 0 => (.noFuel, s)
  | fuel + 1 =>
    match expr with
    | .Get gexpr gname =>
      andThen (interpret_expr fuel locals gexpr s) (fun object s =>
        match object.primitive with
        | .Instance inst =>
          (match Instance.get inst gname with
           | .ok v => (.ok v, s)
           | .error e => (.error e, s))
        | _ => (.error (InterpretError.new "Only instances have properties." gname), s))
    | .Set sexpr sname svalue =>
      andThen (interpret_expr fuel locals sexpr s) (fun object s =>
        match object.primitive with
        | .Instance inst =>
          andThen (interpret_expr fuel locals svalue s) (fun value s =>
            let _updated := Instance.set inst sname value
            (.ok value, s))
        | _ => (.error (InterpretError.new "Only instances have fields." sname), s))
    | .Call callee paren arguments =>
      andThen (interpret_expr fuel locals callee s) (fun calleeV s =>
        andThen (interpret_args fuel locals arguments s) (fun args s =>
          match calleeV.primitive with
          | .Callable callable =>
            if args.length != callable.arity then
              (.error (InterpretError.new
                ("Expected " ++ toString callable.arity ++ " arguments but got " ++
                  toString args.length ++ ".") paren), s)
            else Callable.call fuel callable args locals s
          | .Class cls =>
            if args.length != 0 then
              (.error (InterpretError.new
                ("Expected 0 arguments but got " ++ toString args.length ++ ".") paren), s)
            else (.ok ⟨.Instance (Instance.new cls), paren⟩, s)
          | _ => (.error (InterpretError.new "Can only call functions and classes." paren), s)))
    | .Binary left operator right =>
      andThen (interpret_expr fuel locals left s) (fun l s =>
        andThen (interpret_expr fuel locals right s) (fun r s =>
          match binaryEval operator l r with
          | .ok v => (.ok v, s)
          | .error e => (.error e, s)))
    | .Grouping expression => interpret_expr fuel locals expression s
    | .Literal value =>
      (match value.token_type with
       | .FALSE => (.ok ⟨.Boolean false, value⟩, s)
       | .TRUE => (.ok ⟨.Boolean true, value⟩, s)
       | .NIL => (.ok ⟨.Nil, value⟩, s)
       | .NUMBER =>
         match parseNumber value.lexeme with
         | some n => (.ok ⟨.Number n, value⟩, s)
         | none => (.crashed, s)
       | .STRING => (.ok ⟨.String value.lexeme, value⟩, s)
       | _ => (.error (InterpretError.new ("Unknown literal: " ++ value.lexeme) value), s))
    | .Unary operator right =>
      andThen (interpret_expr fuel locals right s) (fun r s =>
        match operator.lexeme with
        | "!" => (.ok ⟨.Boolean (!(is_truthy r)), operator⟩, s)
        | "-" =>
          (match to_number r with
           | .ok n => (.ok ⟨.Number (LoxNum.neg n), operator⟩, s)
           | .error e => (.error e, s))
        | _ =>
          (.error (InterpretError.new ("Unknown unary operator: " ++ operator.lexeme) operator), s))
    | .Ternary condition then_branch else_branch =>
      andThen (interpret_expr fuel locals condition s) (fun c s =>
        if is_truthy c then interpret_expr fuel locals then_branch s
        else interpret_expr fuel locals else_branch s)
    | .Variable name => (look_up_var fuel locals s name (.Variable name), s)
    | .Assign name value =>
      match Interpreter.get_local locals (.Assign name value) with
      | some distance =>
        andThen (interpret_expr fuel locals value s) (fun v s =>
          match storeGet s.store s.environment with
          | none => (.crashed, s)
          | some env =>
            match Environment.assign_at s.store env distance name.lexeme v with
            | none => (.crashed, s)
            | some _ => interpret_expr fuel locals value s)
      | none =>
        andThen (interpret_expr fuel locals value s) (fun v s =>
          match storeGet s.store s.environment with
          | none => (.crashed, s)
          | some env =>
            match Environment.assign_global fuel s.store env name.lexeme v with
            | .ok _ => interpret_expr fuel locals value s
            | .error e => e.elim
            | .crashed => (.crashed, s)
            | .noFuel => (.noFuel, s))
    | .Logical left operator right =>
      andThen (interpret_expr fuel locals left s) (fun l s =>
        if operator.token_type == .OR then
          if is_truthy l then (.ok l, s)
          else interpret_expr fuel locals right s
        else
          if !(is_truthy l) then (.ok l, s)
          else interpret_expr fuel locals right s)
termination_by structural fuel

/-- The argument-evaluation loop of the `Call` arm: evaluate the argument
expressions strictly left to right. -/
def interpret_args (fuel : Nat) (locals : Locals) (exprs : List Expr)
    (s : InterpState) : Res InterpretError (List Value) × InterpState :=
  match fuel with
  | 0 => (.noFuel, s)
  | fuel + 1 =>
    match exprs with
    | [] => (.ok [], s)
    | e :: rest =>
      andThen (interpret_expr fuel locals e s) (fun v s =>
        andThen (interpret_args fuel locals rest s) (fun vs s =>
          (.ok (v :: vs), s)))
termination_by structural fuel

/-- LoxCallable::call for Callable (primitive.rs): build a fresh interpreter
rooted at the captured closure, allocate a parameter frame, bind the
arguments, run the body, and consume a `Return` signal (an error whose
`value` is set) into the call's result; a body that finishes normally yields
`Nil`.  The calling interpreter's own environment pointer is untouched (the
Rust code runs the body in a separate `Interpreter` value), which the model
expresses by restoring `environment` on every returning path. -/
def Callable.call (fuel : Nat) (self : Callable) (args : List Value)
    (locals : Locals) (s : InterpState) : Res InterpretError Value × InterpState :=
  match fuel with
  | 0 => (.noFuel, s)
  | fuel + 1 =>
    let s1 := Interpreter.new_environment { s with environment := self.closure }
    match bindParams self.params args s1 with
    | none => (.crashed, s1)
    | some s2 =>
      match interpret_block fuel locals self.body s2 with
      | (.ok _, s3) => (.ok nilReturnValue, { s3 with environment := s.environment })
      | (.error e, s3) =>
        match e.value with
        | some v => (.ok v, { s3 with environment := s.environment })
        | none => (.error e, { s3 with environment := s.environment })
      | (.crashed, s3) => (.crashed, s3)
      | (.noFuel, s3) => (.noFuel, s3)
termination_by structural fuel
end

/-- One scope table of the resolver: `HashMap<String, bool>`
(`false` = declared, `true` = defined). -/
abbrev Scope := List (String × Bool)

/-- HashMap::insert on a scope table (overwrite semantics). -/
def scopeInsert (m : Scope) (k : String) (b : Bool) : Scope :=
  (k, b) :: m.filter (fun p => p.1 != k)

/-- HashMap::contains_key on a scope table. -/
def scopeContains (m : Scope) (k : String) : Bool :=
  (m.find? (fun p => p.1 == k)).isSome

/-- Replace the last element of the resolver's scope stack (`last_mut`). -/
def updateLast (sts : List Scope) (scope : Scope) : List Scope :=
  sts.dropLast ++ [scope]

/-- The resolver's mutable state: the scope stack `stacks` (bottom of the
`Vec` first) and the interpreter's resolution map it populates. -/
abbrev ResolveState := List Scope × Locals

/-- Resolver::declare (resolver.rs): no-op with no open scope; duplicate
declarations in the innermost scope are an error; otherwise mark the name
declared-but-undefined. -/
def Resolver.declare (rs : ResolveState) (name : Token) :
    Except InterpretError ResolveState :=
  match rs.1.getLast? with
  | none => .ok rs
  | some scope =>
    if scopeContains scope name.lexeme then
      .error (InterpretError.new
        "Variable with this name already declared in this scope." name)
    else .ok (updateLast rs.1 (scopeInsert scope name.lexeme false), rs.2)

/-- Resolver::define (resolver.rs): mark the name defined in the innermost
scope (no-op with no open scope). -/
def Resolver.define (rs : ResolveState) (name : Token) : ResolveState :=
  match rs.1.getLast? with
  | none => rs
  | some scope => (updateLast rs.1 (scopeInsert scope name.lexeme true), rs.2)

/-- Resolver::begin_scope (resolver.rs). -/
def Resolver.begin_scope (rs : ResolveState) : ResolveState :=
  (rs.1 ++ [[]], rs.2)

/-- Resolver::end_scope (resolver.rs). -/
def Resolver.end_scope (rs : ResolveState) : ResolveState :=
  (rs.1.dropLast, rs.2)

/-- Resolver::resolve_local (resolver.rs):
`for (i, scope) in self.stacks.iter().enumerate().rev()` — record, for the
given expression key, the absolute `Vec` index `i` of the topmost scope that
contains the name (note: the index from the bottom of the stack, exactly as
the source computes it). -/
def Resolver.resolve_local (rs : ResolveState) (expr : Expr) (name : Token) :
    ResolveState :=
  match (List.range rs.1.length).reverse.find?
      (fun i =>
        match rs.1.get? i with
        | some scope => scopeContains scope name.lexeme
        | none => false) with
  | some i => (rs.1, Interpreter.resolve rs.2 expr i)
  | none => rs

/-- Resolver::resolve_var_expr (resolver.rs).  (The
read-in-own-initializer check only reports a diagnostic and does not affect
the resolution map; diagnostics are not modelled.) -/
def Resolver.resolve_var_expr (rs : ResolveState) (expr : Expr) : ResolveState :=
  match expr with
  | .Variable var => Resolver.resolve_local rs expr var
  | _ => rs

mutual
/-- Resolver::resolve (resolver.rs): resolve the statements in order,
propagating the first error. -/
def Resolver.resolve (fuel : Nat) (stmts : List Stmt) (rs : ResolveState) :
    Res InterpretError ResolveState :=
  match fuel with
  | 0 => .noFuel
  | fuel + 1 =>
    match stmts with
    | [] => .ok rs
    | stmt :: rest =>
      match Resolver.resolve_stmt fuel stmt rs with
      | .ok rs2 => Resolver.resolve fuel rest rs2
      | .error e => .error e
      | .crashed => .crashed
      | .noFuel => .noFuel
termination_by structural fuel

/-- Resolver::resolve_stmt (resolver.rs).  The source match has no
`Stmt::Class` arm at all; that case is `Modelled from the spec:` section 4.3
prescribes declare-and-define of the class name followed by resolving each
method. -/
def Resolver.resolve_stmt (fuel : Nat) (stmt : Stmt) (rs : ResolveState) :
    Res InterpretError ResolveState :=
  match fuel with
  | 0 => .noFuel
  | fuel + 1 =>
    match stmt with
    | .Function token tokens stmts =>
      match Resolver.declare rs token with
      | .error e => .error e
      | .ok rs2 => Resolver.resolve_function fuel tokens stmts (Resolver.define rs2 token)
    | .Expr e => Resolver.resolve_expr fuel e rs
    | .If condition then_branch else_branch =>
      match Resolver.resolve_expr fuel condition rs with
      | .ok rs2 =>
        match Resolver.resolve_stmt fuel then_branch rs2 with
        | .ok rs3 =>
          (match else_branch with
           | some else_stmt => Resolver.resolve_stmt fuel else_stmt rs3
           | none => .ok rs3)
        | r => r
      | r => r
    | .Print e => Resolver.resolve_expr fuel e rs
    | .Return _ e =>
      (match e with
       | some e => Resolver.resolve_expr fuel e rs
       | none => .ok rs)
    | .While condition body =>
      match Resolver.resolve_expr fuel condition rs with
      | .ok rs2 => Resolver.resolve_stmt fuel body rs2
      | r => r
    | .Block stmts =>
      match Resolver.resolve fuel stmts (Resolver.begin_scope rs) with
      | .ok rs2 => .ok (Resolver.end_scope rs2)
      | r => r
    | .Var name e =>
      match Resolver.declare rs name with
      | .error err => .error err
      | .ok rs2 =>
        match
          (match e with
           | some e => Resolver.resolve_expr fuel e rs2
           | none => .ok rs2) with
        | .ok rs3 => .ok (Resolver.define rs3 name)
        | r => r
    | .Assign _ e => Resolver.resolve_expr fuel e rs
    | .Break => .ok rs
    | .Class name methods =>
      match Resolver.declare rs name with
      | .error e => .error e
      | .ok rs2 => Resolver.resolve fuel methods (Resolver.define rs2 name)
termination_by structural fuel

/-- Resolver::resolve_expr (resolver.rs).  Note the `Assign` arm keys the
resolution map by the assignment's value expression
(`self.resolve_local(*assign.value, assign.name)`), exactly as the source
does.  The read-in-own-initializer diagnostic of the `Variable` arm is not
modelled (it does not affect the resolution map).  The source match has no
`Get`/`Set` arms; those two cases are `Modelled from the spec:` section 4.3
prescribes structural recursion for nodes without a dedicated action. -/
def Resolver.resolve_expr (fuel : Nat) (expr : Expr) (rs : ResolveState) :
    Res InterpretError ResolveState :=
  match fuel with
  | 0 => .noFuel
  | fuel + 1 =>
    match expr with
    | .Call callee _ arguments =>
      match Resolver.resolve_expr fuel callee rs with
      | .ok rs2 => Resolver.resolve_exprs fuel arguments rs2
      | r => r
    | .Assign name value =>
      match Resolver.resolve_expr fuel value rs with
      | .ok rs2 => .ok (Resolver.resolve_local rs2 value name)
      | r => r
    | .Binary left _ right =>
      match Resolver.resolve_expr fuel left rs with
      | .ok rs2 => Resolver.resolve_expr fuel right rs2
      | r => r
    | .Grouping expression => Resolver.resolve_expr fuel expression rs
    | .Literal _ => .ok rs
    | .Logical left _ right =>
      match Resolver.resolve_expr fuel left rs with
      | .ok rs2 => Resolver.resolve_expr fuel right rs2
      | r => r
    | .Unary _ right => Resolver.resolve_expr fuel right rs
    | .Variable var => .ok (Resolver.resolve_var_expr rs (.Variable var))
    | .Ternary condition then_branch else_branch =>
      match Resolver.resolve_expr fuel condition rs with
      | .ok rs2 =>
        match Resolver.resolve_expr fuel then_branch rs2 with
        | .ok rs3 => Resolver.resolve_expr fuel else_branch rs3
        | r => r
      | r => r
    | .Get expression _ => Resolver.resolve_expr fuel expression rs
    | .Set expression _ value =>
      match Resolver.resolve_expr fuel expression rs with
      | .ok rs2 => Resolver.resolve_expr fuel value rs2
      | r => r
termination_by structural fuel

/-- The argument loop of the resolver's `Call` arm. -/
def Resolver.resolve_exprs (fuel : Nat) (exprs : List Expr) (rs : ResolveState) :
    Res InterpretError ResolveState :=
  match fuel with
  | 0 => .noFuel
  | fuel + 1 =>
    match exprs with
    | [] => .ok rs
    | e :: rest =>
      match Resolver.resolve_expr fuel e rs with
      | .ok rs2 => Resolver.resolve_exprs fuel rest rs2
      | r => r
termination_by structural fuel

/-- Resolver::resolve_function (resolver.rs): a fresh scope holding the
parameters, then the body, then pop. -/
def Resolver.resolve_function (fuel : Nat) (params : List Token)
    (stmts : List Stmt) (rs : ResolveState) : Res InterpretError ResolveState :=
  match fuel with
  | 0 => .noFuel
  | fuel + 1 =>
    match Resolver.declareParams fuel params (Resolver.begin_scope rs) with
    | .ok rs2 =>
      match Resolver.resolve fuel stmts rs2 with
      | .ok rs3 => .ok (Resolver.end_scope rs3)
      | r => r
    | r => r
termination_by structural fuel

/-- The parameter loop of Resolver::resolve_function: declare and define
each parameter in order. -/
def Resolver.declareParams (fuel : Nat) (params : List Token) (rs : ResolveState) :
    Res InterpretError ResolveState :=
  match fuel with
  | 0 => .noFuel
  | fuel + 1 =>
    match params with
    | [] => .ok rs
    | p :: rest =>
      match Resolver.declare rs p with
      | .error e => .error e
      | .ok rs2 => Resolver.declareParams fuel rest (Resolver.define rs2 p)
termination_by structural fuel
end

/-- The interpreter's starting state: a single global environment
(`Environment::global()`), no output. -/
def initialState : InterpState :=
  ⟨[Environment.global], 0, []⟩

/-- The resolver pre-pass over a program, starting from an empty scope stack
and an empty resolution map, yielding the populated resolution map. -/
def resolveProgram (fuel : Nat) (stmts : List Stmt) : Res InterpretError Locals :=
  match Resolver.resolve fuel stmts ([], []) with
  | .ok rs => .ok rs.2
  | .error e => .error e
  | .crashed => .crashed
  | .noFuel => .noFuel

/-- The pipeline of spec section 2 on an already-parsed program: resolve,
then interpret the statement list against the resolution map (interpretation
is suppressed when the resolver errs). -/
def runProgram (fuel : Nat) (stmts : List Stmt) : Res InterpretError Unit × InterpState :=
  match resolveProgram fuel stmts with
  | .ok locals => interpret_block fuel locals stmts initialState
  | .error e => (.error e, initialState)
  | .crashed => (.crashed, initialState)
  | .noFuel => (.noFuel, initialState)

/-- An identifier token on line 1. -/
def tkId (lexeme : String) : Token := Token.new .IDENTIFIER lexeme 1

/-- A number token on line 1. -/
def tkNum (lexeme : String) : Token := Token.new .NUMBER lexeme 1

/-- The program `if (1) print 1; else print 2;` as the parser builds it. -/
def ifTruthyProgram : List Stmt :=
  [.If (.Literal (tkNum "1"))
    (.Print (.Literal (tkNum "1")))
    (some (.Print (.Literal (tkNum "2"))))]

/-- The program `{ var y = 1; { var x = 2; { print x; } } }` as the parser
builds it. -/
def shadowProgram : List Stmt :=
  [.Block
    [.Var (tkId "y") (some (.Literal (tkNum "1"))),
     .Block
       [.Var (tkId "x") (some (.Literal (tkNum "2"))),
        .Block [.Print (.Variable (tkId "x"))]]]]

/-- The program `fun f() { print 9; return 3; } var x = 1; print x = f();
print x;` as the parser builds it (the assignment under `print` stays an
`Expr::Assign`). -/
def assignProgram : List Stmt :=
  [.Function (tkId "f") []
    [.Print (.Literal (tkNum "9")),
     .Return (Token.new .RETURN "return" 1) (some (.Literal (tkNum "3")))],
   .Var (tkId "x") (some (.Literal (tkNum "1"))),
   .Print (.Assign (tkId "x")
     (.Call (.Variable (tkId "f")) (Token.new .RIGHT_PAREN ")" 1) [])),
   .Print (.Variable (tkId "x"))]

/-- The program `class P {} var p = P(); p.x = 5; print p.x;` as the parser
builds it (`p.x = 5;` becomes `Stmt::Expr(Expr::Set(..))`). -/
def setFieldProgram : List Stmt :=
  [.Class (tkId "P") [],
   .Var (tkId "p")
     (some (.Call (.Variable (tkId "P")) (Token.new .RIGHT_PAREN ")" 1) [])),
   .Expr (.Set (.Variable (tkId "p")) (tkId "x") (.Literal (tkNum "5"))),
   .Print (.Get (.Variable (tkId "p")) (tkId "x"))]

/-- Modelled from the spec: the distance-qualified read `getAt(distance,
name)` of spec section 4.5 — skip exactly `distance` enclosing links from the
given frame and read directly in the target frame's own table.  Stated only
to compare the source's `Environment::get` against the spec's words. -/
def getAtSpec (store : Store) (env : Environment) : Nat → String → Option Value
  | 0, name => mapGet env.values name
  | d + 1, name =>
    match env.enclosing with
    | some r =>
      match storeGet store r with
      | some e => getAtSpec store e d name
      | none => none
    | none => none

/-- The environment arena at the moment `print x;` of `shadowProgram` is
reached: global, the outer block frame holding `y = 1`, the middle block
frame holding `x = 2`, and the empty innermost block frame. -/
def shadowStore : Store :=
  [⟨none, []⟩,
   ⟨some 0, [("y", ⟨.Number ⟨1, 1⟩, tkNum "1"⟩)]⟩,
   ⟨some 1, [("x", ⟨.Number ⟨2, 1⟩, tkNum "2"⟩)]⟩,
   ⟨some 2, []⟩]

/-- Claim C1: an `if` (or `while`) condition is supposed to be tested by
truthiness, so `if (1) print 1; else print 2;` should run the then branch.
The source instead tests `condition.primitive == Primitive::Boolean(true)`:
the number `1` is truthy, yet the program prints `2` — the else branch ran.
This evaluates the code at the failing input of the code_bug verdict. -/
theorem c1_if_tests_boolean_true_not_truthiness :
    is_truthy ⟨.Number ⟨1, 1⟩, tkNum "1"⟩ = true ∧
    eqBooleanTrue (.Number ⟨1, 1⟩) = false ∧
    (runProgram 10 ifTruthyProgram).1 = .ok () ∧
    (runProgram 10 ifTruthyProgram).2.output = ["2"] :=
  ⟨rfl, rfl, rfl, rfl⟩

/-- Claim C2: a `Variable` use recorded at distance `d` is supposed to read
the binding in the `d`-th enclosing frame of the environment active at the
use.  In `{ var y = 1; { var x = 2; { print x; } } }` the resolver records
distance `1` for the use of `x`; the frame one link above the innermost one
(`getAtSpec … 1 "x"`) holds `2`, so the claimed semantics prints `2`.  The
code instead panics: `Environment::get` hops `distance + 1` links at a time
(current frame first, regardless of distance), lands on the frame holding
only `y`, and `ancestor` then unwraps `None` past the global root.  This
evaluates the code at the failing input of the code_bug verdict. -/
theorem c2_lookup_ignores_resolved_distance :
    resolveProgram 20 shadowProgram = .ok [(.Variable (tkId "x"), 1)] ∧
    (runProgram 20 shadowProgram).1 = .crashed ∧
    (runProgram 20 shadowProgram).2.store = shadowStore ∧
    (runProgram 20 shadowProgram).2.environment = 3 ∧
    getAtSpec shadowStore ⟨some 2, []⟩ 1 "x" = some ⟨.Number ⟨2, 1⟩, tkNum "2"⟩ ∧
    (runProgram 20 shadowProgram).2.output = [] :=
  ⟨rfl, rfl, rfl, rfl, rfl, rfl⟩

/-- Claim C3: an `Assign` expression is supposed to evaluate its right-hand
side once, make the write visible to later reads, error on unbound names,
and yield the assigned value.  Running `fun f() { print 9; return 3; }
var x = 1; print x = f(); print x;` shows the code evaluating the right-hand
side twice (`9` is printed twice), yielding the second evaluation's value,
and losing the write entirely (the final print shows `1`, and the unbound
case is a silent no-op on the same code path): `assign_global`/`assign_at`
insert into clones that are immediately dropped.  The claimed semantics
prints `9`, `3`, `3`.  This evaluates the code at the failing input of the
code_bug verdict. -/
theorem c3_assign_expression_writes_lost_rhs_twice :
    (runProgram 30 assignProgram).1 = .ok () ∧
    (runProgram 30 assignProgram).2.output = ["9", "9", "3", "1"] :=
  ⟨rfl, rfl⟩

/-- Claim C4: a `Return` signal travelling the error channel is always
consumed by `Callable::call` at the call site — the call yields the returned
value, a body that falls off the end yields `Nil`, and no error whose
`value` is set (the `Return` tag) ever escapes the call. -/
theorem c4_return_consumed_at_call (fuel : Nat) (c : Callable) (args : List Value)
    (locals : Locals) (s : InterpState) :
    (∀ e s2, Callable.call (fuel + 1) c args locals s = (.error e, s2) → e.value = none) ∧
    (∀ s2 e s3 v,
      bindParams c.params args
          (Interpreter.new_environment { s with environment := c.closure }) = some s2 →
      interpret_block fuel locals c.body s2 = (.error e, s3) →
      e.value = some v →
      Callable.call (fuel + 1) c args locals s = (.ok v, { s3 with environment := s.environment })) ∧
    (∀ s2 u s3,
      bindParams c.params args
          (Interpreter.new_environment { s with environment := c.closure }) = some s2 →
      interpret_block fuel locals c.body s2 = (.ok u, s3) →
      Callable.call (fuel + 1) c args locals s =
        (.ok nilReturnValue, { s3 with environment := s.environment })) := by
  refine ⟨?_, ?_, ?_⟩
  · intro e s2 h
    simp only [Callable.call] at h
    split at h
    · exact absurd h (by simp)
    · split at h
      · exact absurd h (by simp)
      · rename_i heq
        split at h
        · exact absurd h (by simp)
        · rename_i hval
          have h1 : Res.error (ε := InterpretError) (α := Value) _ = .error e :=
            congrArg Prod.fst h
          cases h1
          exact hval
      · exact absurd h (by simp)
      · exact absurd h (by simp)
  · intro s2 e s3 v hbind hblock hval
    simp only [Callable.call, hbind, hblock, hval]
  · intro s2 u s3 hbind hblock
    simp only [Callable.call, hbind, hblock]

/-- The callable `fun f() { return; }` captured at the global frame, used to
witness `c4_return_consumed_at_call` on a concrete call. -/
def c4Callable : Callable :=
  Callable.new (tkId "f") [] [.Return (Token.new .RETURN "return" 0) none] 0

/-- Witness for C4: calling `c4Callable` on the initial state consumes the
`Return` signal raised in the body and yields its `Nil` payload. -/
theorem c4_witness :
    Callable.call 3 c4Callable [] [] initialState =
      (.ok ⟨.Nil, Token.new .NIL "nil" 0⟩,
        ⟨[⟨none, []⟩, ⟨some 0, []⟩], 0, []⟩) := by
  have h := (c4_return_consumed_at_call 2 c4Callable [] [] initialState).2.1
  exact h _ _ _ ⟨.Nil, Token.new .NIL "nil" 0⟩ rfl rfl rfl

/-- Claim C7: a `Logical` expression evaluates its left operand first; for
`or` the right operand is evaluated exactly when the left value is falsy, for
`and` exactly when it is truthy; the result is the deciding operand's value
itself (`lv`, or exactly the evaluation of the right operand), never a
coerced boolean, and the state advances past the right operand only when it
is evaluated. -/
theorem c7_logical_short_circuit (fuel : Nat) (locals : Locals) (left right : Expr)
    (operator : Token) (s s1 : InterpState) (lv : Value)
    (hl : interpret_expr fuel locals left s = (.ok lv, s1)) :
    (operator.token_type = .OR → is_truthy lv = true →
      interpret_expr (fuel + 1) locals (.Logical left operator right) s = (.ok lv, s1)) ∧
    (operator.token_type = .OR → is_truthy lv = false →
      interpret_expr (fuel + 1) locals (.Logical left operator right) s =
        interpret_expr fuel locals right s1) ∧
    (operator.token_type = .AND → is_truthy lv = false →
      interpret_expr (fuel + 1) locals (.Logical left operator right) s = (.ok lv, s1)) ∧
    (operator.token_type = .AND → is_truthy lv = true →
      interpret_expr (fuel + 1) locals (.Logical left operator right) s =
        interpret_expr fuel locals right s1) := by
  refine ⟨?_, ?_, ?_, ?_⟩ <;> intro hop ht <;>
    simp only [interpret_expr, hl, andThen, hop, ht] <;> rfl

/-- Witness for C7: `true or 1` yields the left operand itself without
touching the right operand or the state. -/
theorem c7_witness :
    interpret_expr 2 []
      (.Logical (.Literal (Token.new .TRUE "true" 1)) (Token.new .OR "or" 1)
        (.Literal (tkNum "1")))
      initialState =
    (.ok ⟨.Boolean true, Token.new .TRUE "true" 1⟩, initialState) := by
  have h := c7_logical_short_circuit 1 [] (.Literal (Token.new .TRUE "true" 1))
    (.Literal (tkNum "1")) (Token.new .OR "or" 1) initialState initialState
    ⟨.Boolean true, Token.new .TRUE "true" 1⟩ rfl
  exact h.1 rfl rfl

/-- Claim C8: a `Set` on an instance is supposed to make a later `Get` of the
same field observe the written value, so `class P {} var p = P(); p.x = 5;
print p.x;` should print `5`.  The code instead writes the field into a
by-value copy of the instance (moved out of `object.primitive`) and drops
it, so the final statement raises the "Undefined property 'x'." runtime error
and nothing is printed.  This evaluates the code at the failing input of the
code_bug verdict. -/
theorem c8_set_then_get_undefined_property :
    (runProgram 30 setFieldProgram).1 =
      .error (InterpretError.new "Undefined property 'x'." (tkId "x")) ∧
    (runProgram 30 setFieldProgram).2.output = [] :=
  ⟨rfl, rfl⟩

/-- Counterexample for claim C9: the canonical printed form of the string
`hi` is not its raw contents — the `Display` impl wraps string contents in
double quotes. -/
theorem c9_string_display_not_raw :
    Primitive.display (.String "hi") ≠ "hi" := by decide

/-- Claim C9 as amended: the canonical printed form of a `String` value is
its contents surrounded by double quotes
(`write!(f, "\"{}\"", string)`). -/
theorem c9_string_display_quoted (s : String) :
    Primitive.display (.String s) = "\"" ++ s ++ "\"" := rfl

/-- Scanner state (`scanner.rs`, `struct Scanner`): the source as its
character sequence, the tokens emitted so far, and the `start`/`current`
cursors together with the line counter.  Crucially, the source keeps *byte*
positions in `start`/`current` for `is_at_end` (`self.source.len()`) and for
slicing, but indexes *characters* with them in
`self.source.chars().nth(..)`; the model keeps both views. -/
structure ScanState where
  source : List Char
  tokens : List Token
  start : Nat
  current : Nat
  line : Nat

/-- The UTF-8 byte length of the source, `self.source.len()`. -/
def sourceLen (cs : List Char) : Nat :=
  (cs.map Char.utf8Size).sum

/-- Scanner::is_at_end (scanner.rs): compares the cursor against the *byte*
length. -/
def ScanState.is_at_end (st : ScanState) : Bool :=
  decide (st.current ≥ sourceLen st.source)

/-- Scanner::advance (scanner.rs): bump the cursor, then
`self.source.chars().nth(self.current - 1).unwrap()` — `none` models the
unwrap panic when the byte-counted cursor overruns the character count. -/
def ScanState.advance (st : ScanState) : Option (Char × ScanState) :=
  let st2 := { st with current := st.current + 1 }
  match st.source.get? (st2.current - 1) with
  | some c => some (c, st2)
  | none => none

/-- Scanner::peek (scanner.rs): `'\0'` at (byte) end of input, otherwise
`chars().nth(current).unwrap()`; `none` models the unwrap panic. -/
def ScanState.peek (st : ScanState) : Option Char :=
  if st.is_at_end then some (Char.ofNat 0) else st.source.get? st.current

/-- Scanner::peak_next (scanner.rs). -/
def ScanState.peak_next (st : ScanState) : Option Char :=
  if st.current + 1 ≥ sourceLen st.source then some (Char.ofNat 0)
  else st.source.get? (st.current + 1)

/-- Scanner::match_char (scanner.rs).  Never panics: the lookahead is an
`Option` comparison (`self.source.chars().nth(..) != Some(char)`). -/
def ScanState.match_char (st : ScanState) (c : Char) : Bool × ScanState :=
  if st.is_at_end then (false, st)
  else if st.source.get? st.current != some c then (false, st)
  else (true, { st with current := st.current + 1 })

/-- Scanner::make_token (scanner.rs). -/
def ScanState.make_token (st : ScanState) (token_type : TokenType)
    (literal : String) : ScanState :=
  { st with tokens := st.tokens ++ [Token.new token_type literal st.line] }

/-- Take chars worth exactly `need` bytes from the front; `none` models a
byte-slice boundary panic (the requested end is out of range or not a char
boundary). -/
def takeBytes (cs : List Char) (need : Nat) : Option (List Char) :=
  match cs, need with
  | _, 0 => some []
  | [], _ => none
  | c :: rest, n =>
    if c.utf8Size ≤ n then (takeBytes rest (n - c.utf8Size)).map (fun l => c :: l)
    else none

/-- Drop chars worth exactly `off` bytes from the front; `none` models a
byte-slice boundary panic. -/
def dropBytes (cs : List Char) (off : Nat) : Option (List Char) :=
  match cs, off with
  | rest, 0 => some rest
  | [], _ => none
  | c :: rest, n => if c.utf8Size ≤ n then dropBytes rest (n - c.utf8Size) else none

/-- The byte-range slice `&self.source[a..b]` of scanner.rs; `none` models
the slicing panic on a non-boundary or out-of-range index. -/
def byteSlice (cs : List Char) (a b : Nat) : Option String :=
  match dropBytes cs a with
  | none => none
  | some rest => (takeBytes rest (b - a)).map (fun l => String.mk l)

/-- The scanner's keyword table (scanner.rs, `KEYWORDS` /
`match_keyword`).  Note the source table has no entry for `break`. -/
def match_keyword (s : String) : TokenType :=
  match s with
  | "and" => .AND
  | "class" => .CLASS
  | "else" => .ELSE
  | "false" => .FALSE
  | "for" => .FOR
  | "fun" => .FUN
  | "if" => .IF
  | "nil" => .NIL
  | "or" => .OR
  | "print" => .PRINT
  | "return" => .RETURN
  | "super" => .SUPER
  | "this" => .THIS
  | "true" => .TRUE
  | "var" => .VAR
  | "while" => .WHILE
  | _ => .IDENTIFIER

/-- The block-comment loop of the `/` arm of Scanner::scan_token:
`while !(peek == '*' && peak_next == '/') && !is_at_end { bump line on newline; advance }`. -/
def commentLoop (fuel : Nat) (st : ScanState) : Res Empty ScanState :=
  match fuel with
  | 0 => .noFuel
  | fuel + 1 =>
    match st.peek with
    | none => .crashed
    | some p =>
      match (if p == '*' then
               match st.peak_next with
               | none => none
               | some q => some (q == '/')
             else some false) with
      | none => .crashed
      | some starSlash =>
        if starSlash then .ok st
        else if st.is_at_end then .ok st
        else
          let st := if p == '\n' then { st with line := st.line + 1 } else st
          match st.advance with
          | none => .crashed
          | some (_, st) => commentLoop fuel st

/-- The line-comment loop of the `/` arm of Scanner::scan_token:
`while peek != '\n' && !is_at_end { advance }`. -/
def lineCommentLoop (fuel : Nat) (st : ScanState) : Res Empty ScanState :=
  match fuel with
  | 0 => .noFuel
  | fuel + 1 =>
    match st.peek with
    | none => .crashed
    | some p =>
      if p != '\n' && !st.is_at_end then
        match st.advance with
        | none => .crashed
        | some (_, st) => lineCommentLoop fuel st
      else .ok st

/-- The loop of Scanner::string:
`while peek != '"' && !is_at_end { bump line on newline; advance }`. -/
def stringLoop (fuel : Nat) (st : ScanState) : Res Empty ScanState :=
  match fuel with
  | 0 => .noFuel
  | fuel + 1 =>
    match st.peek with
    | none => .crashed
    | some p =>
      if p != '"' && !st.is_at_end then
        let st := if p == '\n' then { st with line := st.line + 1 } else st
        match st.advance with
        | none => .crashed
        | some (_, st) => stringLoop fuel st
      else .ok st

/-- Scanner::string (scanner.rs), after the opening quote was consumed: scan
to the closing quote (an unterminated string is reported and produces no
token), consume it, and emit a `STRING` token whose lexeme is the byte slice
between the quotes. -/
def scanString (fuel : Nat) (st : ScanState) : Res Empty ScanState :=
  match stringLoop fuel st with
  | .ok st =>
    if st.is_at_end then .ok st
    else
      match st.advance with
      | none => .crashed
      | some (_, st) =>
        match byteSlice st.source (st.start + 1) (st.current - 1) with
        | none => .crashed
        | some value => .ok (st.make_token .STRING value)
  | r => r

/-- The digit loop of Scanner::number: `while peek.is_digit(10) { advance }`. -/
def digitsLoop (fuel : Nat) (st : ScanState) : Res Empty ScanState :=
  match fuel with
  | 0 => .noFuel
  | fuel + 1 =>
    match st.peek with
    | none => .crashed
    | some p =>
      if p.isDigit then
        match st.advance with
        | none => .crashed
        | some (_, st) => digitsLoop fuel st
      else .ok st

/-- Scanner::number (scanner.rs), after the first digit was consumed: scan
the integer part, an optional `.digits` fraction, parse the byte slice
(`.unwrap()` panics on failure) and emit a `NUMBER` token whose lexeme is the
`Display` rendering of the parsed value (`value.to_string()`). -/
def scanNumber (fuel : Nat) (st : ScanState) : Res Empty ScanState :=
  match digitsLoop fuel st with
  | .ok st =>
    match st.peek with
    | none => .crashed
    | some p =>
      match (if p == '.' then
               match st.peak_next with
               | none => none
               | some q => some q.isDigit
             else some false) with
      | none => .crashed
      | some fracFollows =>
        match
          (if fracFollows then
            match st.advance with
            | none => .crashed
            | some (_, st) => digitsLoop fuel st
          else .ok st : Res Empty ScanState) with
        | .ok st =>
          match byteSlice st.source st.start st.current with
          | none => .crashed
          | some str =>
            match parseNumber str with
            | none => .crashed
            | some n => .ok (st.make_token .NUMBER n.display)
        | r => r
  | r => r

/-- The loop of Scanner::identifier:
`while peek.is_alphanumeric() || peek == '_' { advance }`.  (Rust
`char::is_alphanumeric` is Unicode-wide; the model uses the ASCII subset,
which is faithful for the inputs considered here.) -/
def identLoop (fuel : Nat) (st : ScanState) : Res Empty ScanState :=
  match fuel with
  | 0 => .noFuel
  | fuel + 1 =>
    match st.peek with
    | none => .crashed
    | some p =>
      if p.isAlphanum || p == '_' then
        match st.advance with
        | none => .crashed
        | some (_, st) => identLoop fuel st
      else .ok st

/-- Scanner::identifier (scanner.rs): scan the identifier tail, slice it and
emit the keyword kind from the table (or `IDENTIFIER`). -/
def scanIdentifier (fuel : Nat) (st : ScanState) : Res Empty ScanState :=
  match identLoop fuel st with
  | .ok st =>
    match byteSlice st.source st.start st.current with
    | none => .crashed
    | some str => .ok (st.make_token (match_keyword str) str)
  | r => r

/-- Scanner::scan_token (scanner.rs): consume one character and dispatch.
Lex errors (`error(..)`) are reported to the diagnostic sink and produce no
token; scanning continues.  Note the `SLASH` token is emitted with an empty
lexeme (`String::new()`), exactly as in the source. -/
def scan_token (fuel : Nat) (st : ScanState) : Res Empty ScanState :=
  match st.advance with
  | none => .crashed
  | some (c, st) =>
    match c with
    | '(' => .ok (st.make_token .LEFT_PAREN "(")
    | ')' => .ok (st.make_token .RIGHT_PAREN ")")
    | '{' => .ok (st.make_token .LEFT_BRACE "\x7b")
    | '}' => .ok (st.make_token .RIGHT_BRACE "\x7d")
    | ',' => .ok (st.make_token .COMMA ",")
    | '.' => .ok (st.make_token .DOT ".")
    | '-' => .ok (st.make_token .MINUS "-")
    | '+' => .ok (st.make_token .PLUS "+")
    | ';' => .ok (st.make_token .SEMICOLON ";")
    | '*' => .ok (st.make_token .STAR "*")
    | '!' =>
      match st.match_char '=' with
      | (true, st) => .ok (st.make_token .BANG_EQUAL "!=")
      | (false, st) => .ok (st.make_token .BANG "!")
    | '=' =>
      match st.match_char '=' with
      | (true, st) => .ok (st.make_token .EQUAL_EQUAL "==")
      | (false, st) => .ok (st.make_token .EQUAL "=")
    | '<' =>
      match st.match_char '=' with
      | (true, st) => .ok (st.make_token .LESS_EQUAL "<=")
      | (false, st) => .ok (st.make_token .LESS "<")
    | '>' =>
      match st.match_char '=' with
      | (true, st) => .ok (st.make_token .GREATER_EQUAL ">=")
      | (false, st) => .ok (st.make_token .GREATER ">")
    | '/' =>
      match st.match_char '*' with
      | (true, st) =>
        (match commentLoop fuel st with
         | .ok st =>
           if st.is_at_end then .ok st
           else
             match st.advance with
             | none => .crashed
             | some (_, st) =>
               if st.is_at_end then .ok st
               else
                 match st.advance with
                 | none => .crashed
                 | some (_, st) => .ok st
         | r => r)
      | (false, st) =>
        match st.match_char '/' with
        | (true, st) => lineCommentLoop fuel st
        | (false, st) => .ok (st.make_token .SLASH "")
    | ' ' => .ok st
    | '\r' => .ok st
    | '\t' => .ok st
    | '\n' => .ok { st with line := st.line + 1 }
    | '"' => scanString fuel st
    | c =>
      if '0' ≤ c && c ≤ '9' then scanNumber fuel st
      else if c == '_' || ('a' ≤ c && c ≤ 'z') || ('A' ≤ c && c ≤ 'Z') then
        scanIdentifier fuel st
      else .ok st

/-- The `while !is_at_end { start = current; scan_token() }` loop of
Scanner::scan_tokens. -/
def scanLoop (fuel : Nat) (st : ScanState) : Res Empty ScanState :=
  match fuel with
  | 0 => .noFuel
  | fuel + 1 =>
    if st.is_at_end then .ok st
    else
      match scan_token fuel { st with start := st.current } with
      | .ok st2 => scanLoop fuel st2
      | r => r

/-- Scanner::scan_tokens (scanner.rs) on a fresh `Scanner::new(source)`:
run the scan loop, then append the single trailing `EOF` token. -/
def scan_tokens (fuel : Nat) (source : String) : Res Empty (List Token) :=
  match scanLoop fuel ⟨source.data, [], 0, 0, 1⟩ with
  | .ok st => .ok (st.tokens ++ [Token.new .EOF "" st.line])
  | .error e => e.elim
  | .crashed => .crashed
  | .noFuel => .noFuel

/-- Claim C5: scanning is supposed to be total on every input, including
non-ASCII UTF-8, returning an `EOF`-terminated token list without panicking.
On the one-character source `é` the scanner panics: `is_at_end` counts
*bytes* (`é` is two bytes) while `advance` indexes *characters*, so the
second iteration calls `chars().nth(1).unwrap()` on a one-character string.
On plain ASCII sources the byte and character counts coincide and scanning
does return an `EOF`-terminated list, as the second conjunct illustrates.
This evaluates the code at the failing input of the code_bug verdict. -/
theorem c5_scan_panics_on_non_ascii :
    scan_tokens 10 "é" = .crashed ∧
    scan_tokens 20 "1+2" =
      .ok [Token.new .NUMBER "1" 1, Token.new .PLUS "+" 1,
           Token.new .NUMBER "2" 1, Token.new .EOF "" 1] :=
  ⟨rfl, rfl⟩

/-- Parser state (`parser.rs`, `struct Parser`): the token vector and the
cursor, plus the diagnostic sink fed by `crate::error(line, message)`. -/
structure PState where
  tokens : List Token
  current : Nat
  diags : List (Nat × String)

/-- ParseError (parser.rs). -/
structure ParseError where
  token : Token
  message : String

/-- The diagnostic sink `crate::error(line, message)` as seen from the
parser. -/
def report (st : PState) (line : Nat) (message : String) : PState :=
  { st with diags := st.diags ++ [(line, message)] }

/-- Parser::peek (parser.rs): `self.tokens[self.current].clone()` — `none`
models the index panic. -/
def Parser.peek (st : PState) : Option Token :=
  st.tokens.get? st.current

/-- Parser::previous (parser.rs): `self.tokens[self.current - 1]` — `none`
models the `usize` underflow at `current == 0` and the index panic. -/
def Parser.previous (st : PState) : Option Token :=
  if st.current = 0 then none else st.tokens.get? (st.current - 1)

/-- Parser::is_at_end (parser.rs): peeks, so it panics (`none`) when the
cursor is out of range — in particular on any token vector with no `EOF`. -/
def Parser.is_at_end (st : PState) : Option Bool :=
  (Parser.peek st).map (fun t => t.token_type == .EOF)

/-- Parser::check (parser.rs). -/
def Parser.check (st : PState) (token_type : TokenType) : Option Bool :=
  match Parser.is_at_end st with
  | none => none
  | some true => some false
  | some false => (Parser.peek st).map (fun t => t.token_type == token_type)

/-- Parser::advance (parser.rs): move unless at end, then `previous()`. -/
def Parser.advance (st : PState) : Option (Token × PState) :=
  match Parser.is_at_end st with
  | none => none
  | some b =>
    let st2 := if b then st else { st with current := st.current + 1 }
    (Parser.previous st2).map (fun t => (t, st2))

/-- Parser::match_token (parser.rs): try each candidate kind in order,
consuming the token on the first hit. -/
def Parser.match_token (st : PState) (token_types : List TokenType) :
    Option (Bool × PState) :=
  match token_types with
  | [] => some (false, st)
  | tt :: rest =>
    match Parser.check st tt with
    | none => none
    | some true => (Parser.advance st).map (fun p => (true, p.2))
    | some false => Parser.match_token st rest

/-- Parser::consume (parser.rs): advance past the expected kind or produce a
`ParseError` carrying the offending token. -/
def Parser.consume (st : PState) (token_type : TokenType) (message : String) :
    Res ParseError Token × PState :=
  match Parser.check st token_type with
  | none => (.crashed, st)
  | some true =>
    match Parser.advance st with
    | none => (.crashed, st)
    | some (t, st2) => (.ok t, st2)
  | some false =>
    match Parser.peek st with
    | none => (.crashed, st)
    | some t => (.error ⟨t, message⟩, st)

/-- The loop of Parser::synchronize: skip forward until just past a `;` or
until the next statement keyword. -/
def Parser.syncLoop (fuel : Nat) (st : PState) : Res Empty PState :=
  match fuel with
  | 0 => .noFuel
  | fuel + 1 =>
    match Parser.is_at_end st with
    | none => .crashed
    | some true => .ok st
    | some false =>
      match Parser.previous st with
      | none => .crashed
      | some prev =>
        if prev.token_type == .SEMICOLON then .ok st
        else
          match Parser.peek st with
          | none => .crashed
          | some t =>
            match t.token_type with
            | .CLASS => .ok st
            | .FUN => .ok st
            | .VAR => .ok st
            | .FOR => .ok st
            | .IF => .ok st
            | .WHILE => .ok st
            | .PRINT => .ok st
            | .RETURN => .ok st
            | _ => Parser.syncLoop fuel { st with current := st.current + 1 }

/-- Parser::synchronize (parser.rs). -/
def Parser.synchronize (fuel : Nat) (st : PState) : Res Empty PState :=
  match Parser.advance st with
  | none => .crashed
  | some (_, st) => Parser.syncLoop fuel st

/-- Sequencing helper for threaded parser results. -/
def pThen {α β : Type} (r : Res ParseError α × PState)
    (k : α → PState → Res ParseError β × PState) : Res ParseError β × PState :=
  match r with
  | (.ok a, st) => k a st
  | (.error e, st) => (.error e, st)
  | (.crashed, st) => (.crashed, st)
  | (.noFuel, st) => (.noFuel, st)

/-- Panic-propagation helper: run the continuation on `some`, crash on
`none`. -/
def pGet {α β : Type} (o : Option α) (st : PState)
    (k : α → Res ParseError β × PState) : Res ParseError β × PState :=
  match o with
  | none => (.crashed, st)
  | some a => k a

/-- The binary-operator list of the leading-operator guard in
Parser::expression (parser.rs). -/
def binary_operators : List TokenType :=
  [.BANG_EQUAL, .EQUAL_EQUAL, .GREATER, .GREATER_EQUAL, .LESS, .LESS_EQUAL,
   .MINUS, .PLUS, .SLASH, .STAR, .QUESTION, .COLON, .COMMA]

/-- The skip loop of the leading-operator guard in Parser::expression:
`while !is_at_end && !match_token(binary_operators) { advance }`. -/
def Parser.exprSkipLoop (fuel : Nat) (st : PState) : Res ParseError Unit × PState :=
  match fuel with
  | 0 => (.noFuel, st)
  | fuel + 1 =>
    match Parser.is_at_end st with
    | none => (.crashed, st)
    | some true => (.ok (), st)
    | some false =>
      match Parser.match_token st binary_operators with
      | none => (.crashed, st)
      | some (true, st) => (.ok (), st)
      | some (false, st) =>
        match Parser.advance st with
        | none => (.crashed, st)
        | some (_, st) => Parser.exprSkipLoop fuel st

/-- The parameter loop of Parser::func_declaration (parser.rs): at most 255
parameters, identifiers separated by commas. -/
def Parser.paramsLoop (fuel : Nat) (st : PState) (acc : List Token) :
    Res ParseError (List Token) × PState :=
  match fuel with
  | 0 => (.noFuel, st)
  | fuel + 1 =>
    if acc.length ≥ 255 then
      match Parser.peek st with
      | none => (.crashed, st)
      | some t => (.error ⟨t, "Can't have more than 255 parameters."⟩, st)
    else
      pThen (Parser.consume st .IDENTIFIER "Expect parameter name.") (fun p st =>
        pGet (Parser.match_token st [.COMMA]) st (fun b =>
          match b with
          | (true, st) => Parser.paramsLoop fuel st (acc ++ [p])
          | (false, st) => (.ok (acc ++ [p]), st)))

mutual
/-- The `while !is_at_end` loop of Parser::parse (parser.rs): parse a
declaration; on success collect it, on `ParseError` report to the sink,
synchronize, and continue; an error value is never produced by the loop
itself. -/
def Parser.parseLoop (fuel : Nat) (st : PState) (acc : List Stmt) :
    Res ParseError (List Stmt) × PState :=
  match fuel with
  | 0 => (.noFuel, st)
  | fuel + 1 =>
    match Parser.is_at_end st with
    | none => (.crashed, st)
    | some true => (.ok acc.reverse, st)
    | some false =>
      match Parser.declaration fuel st with
      | (.ok stmt, st2) => Parser.parseLoop fuel st2 (stmt :: acc)
      | (.error e, st2) =>
        let st3 := report st2 e.token.line e.message
        match Parser.synchronize fuel st3 with
        | .ok st4 => Parser.parseLoop fuel st4 acc
        | .error e2 => e2.elim
        | .crashed => (.crashed, st3)
        | .noFuel => (.noFuel, st3)
      | (.crashed, st2) => (.crashed, st2)
      | (.noFuel, st2) => (.noFuel, st2)
termination_by structural fuel

/-- Parser::declaration (parser.rs). -/
def Parser.declaration (fuel : Nat) (st : PState) : Res ParseError Stmt × PState :=
  match fuel with
  | 0 => (.noFuel, st)
  | fuel + 1 =>
    pGet (Parser.match_token st [.FUN]) st (fun b =>
      match b with
      | (true, st) => Parser.func_declaration fuel "function" st
      | (false, st) =>
        pGet (Parser.match_token st [.VAR]) st (fun b =>
          match b with
          | (true, st) => Parser.var_declaration fuel st
          | (false, st) =>
            pGet (Parser.match_token st [.FOR]) st (fun b =>
              match b with
              | (true, st) => Parser.for_statement fuel st
              | (false, st) =>
                pGet (Parser.match_token st [.IF]) st (fun b =>
                  match b with
                  | (true, st) => Parser.if_statement fuel st
                  | (false, st) =>
                    pGet (Parser.match_token st [.WHILE]) st (fun b =>
                      match b with
                      | (true, st) => Parser.while_statement fuel st
                      | (false, st) =>
                        pGet (Parser.match_token st [.CLASS]) st (fun b =>
                          match b with
                          | (true, st) => Parser.class_declaration fuel st
                          | (false, st) => Parser.statement fuel st))))))
termination_by structural fuel

/-- The method loop of Parser::class_declaration:
`while !check(RIGHT_BRACE) && !is_at_end { func_declaration("method") }`. -/
def Parser.classMethodsLoop (fuel : Nat) (st : PState) (acc : List Stmt) :
    Res ParseError (List Stmt) × PState :=
  match fuel with
  | 0 => (.noFuel, st)
  | fuel + 1 =>
    pGet (Parser.check st .RIGHT_BRACE) st (fun atBrace =>
      pGet (Parser.is_at_end st) st (fun atEnd =>
        if !atBrace && !atEnd then
          pThen (Parser.func_declaration fuel "method" st) (fun m st =>
            Parser.classMethodsLoop fuel st (acc ++ [m]))
        else (.ok acc, st)))
termination_by structural fuel

/-- Parser::class_declaration (parser.rs). -/
def Parser.class_declaration (fuel : Nat) (st : PState) : Res ParseError Stmt × PState :=
  match fuel with
  | 0 => (.noFuel, st)
  | fuel + 1 =>
    pThen (Parser.consume st .IDENTIFIER "Expect class name.") (fun name st =>
      pThen (Parser.consume st .LEFT_BRACE "Expect '\x7b' before class body.") (fun _ st =>
        pThen (Parser.classMethodsLoop fuel st []) (fun methods st =>
          pThen (Parser.consume st .RIGHT_BRACE "Expect '\x7d' after class body.") (fun _ st =>
            (.ok (.Class name methods), st)))))
termination_by structural fuel

/-- Parser::func_declaration (parser.rs). -/
def Parser.func_declaration (fuel : Nat) (kind : String) (st : PState) :
    Res ParseError Stmt × PState :=
  match fuel with
  | 0 => (.noFuel, st)
  | fuel + 1 =>
    pThen (Parser.consume st .IDENTIFIER ("Expect " ++ kind ++ " name.")) (fun name st =>
      pThen (Parser.consume st .LEFT_PAREN ("Expect '(' after " ++ kind ++ " name.")) (fun _ st =>
        pThen
          (pGet (Parser.check st .RIGHT_PAREN) st (fun atParen =>
            if !atParen then Parser.paramsLoop fuel st []
            else (.ok [], st))) (fun parameters st =>
          pThen (Parser.consume st .RIGHT_PAREN "Expect ')' after parameters.") (fun _ st =>
            pThen (Parser.consume st .LEFT_BRACE
                ("Expect '\x7b' before " ++ kind ++ " body.")) (fun _ st =>
              pThen (Parser.block fuel st) (fun body st =>
                (.ok (.Function name parameters body), st)))))))
termination_by structural fuel

/-- Parser::var_declaration (parser.rs).  (The source's `;` message really
has no trailing period.) -/
def Parser.var_declaration (fuel : Nat) (st : PState) : Res ParseError Stmt × PState :=
  match fuel with
  | 0 => (.noFuel, st)
  | fuel + 1 =>
    pThen (Parser.consume st .IDENTIFIER "Expect variable name.") (fun name st =>
      pThen
        (pGet (Parser.match_token st [.EQUAL]) st (fun b =>
          match b with
          | (true, st) =>
            pThen (Parser.expression fuel st) (fun e st => (.ok (some e), st))
          | (false, st) => (.ok none, st))) (fun initializer st =>
        pThen (Parser.consume st .SEMICOLON "Expect ';' after value") (fun _ st =>
          (.ok (.Var name initializer), st))))

/-- Parser::for_statement (parser.rs): desugar
`for (init; cond; inc) body` into blocks and a `while`, with the source's
quirk that an `Expr::Assign` increment becomes
`Stmt::Assign(name, Expr::Assign(..))` (the whole assignment as the
statement's expression), and a missing condition becomes the literal token
`{TRUE, "true", 0}`. -/
def Parser.for_statement (fuel : Nat) (st : PState) : Res ParseError Stmt × PState :=
  match fuel with
  | 0 => (.noFuel, st)
  | fuel + 1 =>
    pThen (Parser.consume st .LEFT_PAREN "Expect '(' after 'for'.") (fun _ st =>
      pThen
        (pGet (Parser.match_token st [.SEMICOLON]) st (fun b =>
          match b with
          | (true, st) => (.ok none, st)
          | (false, st) =>
            pGet (Parser.match_token st [.VAR]) st (fun b2 =>
              match b2 with
              | (true, st) =>
                pThen (Parser.var_declaration fuel st) (fun d st => (.ok (some d), st))
              | (false, st) =>
                pThen (Parser.expression_statement fuel st) (fun d st =>
                  (.ok (some d), st))))) (fun initializer st =>
        pThen
          (pGet (Parser.check st .SEMICOLON) st (fun atSemi =>
            if !atSemi then
              pThen (Parser.expression fuel st) (fun c st => (.ok (some c), st))
            else (.ok none, st))) (fun condition st =>
          pThen (Parser.consume st .SEMICOLON "Expect ';' after loop condition.") (fun _ st =>
            pThen
              (pGet (Parser.check st .RIGHT_PAREN) st (fun atParen =>
                if !atParen then
                  pThen (Parser.expression fuel st) (fun c st => (.ok (some c), st))
                else (.ok none, st))) (fun increment st =>
              pThen (Parser.consume st .RIGHT_PAREN "Expect ')' after for clauses.") (fun _ st =>
                pThen (Parser.statement fuel st) (fun body st =>
                  let body :=
                    match increment with
                    | some inc =>
                      Stmt.Block [body,
                        match inc with
                        | .Assign name value => Stmt.Assign name (.Assign name value)
                        | other => Stmt.Expr other]
                    | none => body
                  let condition :=
                    match condition with
                    | some c => c
                    | none => Expr.Literal ⟨.TRUE, "true", 0⟩
                  let body := Stmt.While condition body
                  let body :=
                    match initializer with
                    | some i => Stmt.Block [i, body]
                    | none => body
                  (.ok body, st))))))))
termination_by structural fuel

/-- Parser::if_statement (parser.rs). -/
def Parser.if_statement (fuel : Nat) (st : PState) : Res ParseError Stmt × PState :=
  match fuel with
  | 0 => (.noFuel, st)
  | fuel + 1 =>
    pThen (Parser.consume st .LEFT_PAREN "Expect '(' after 'if'.") (fun _ st =>
      pThen (Parser.expression fuel st) (fun condition st =>
        pThen (Parser.consume st .RIGHT_PAREN "Expect ')' after if condition.") (fun _ st =>
          pThen (Parser.statement fuel st) (fun then_branch st =>
            pGet (Parser.match_token st [.ELSE]) st (fun b =>
              match b with
              | (true, st) =>
                pThen (Parser.statement fuel st) (fun else_branch st =>
                  (.ok (.If condition then_branch (some else_branch)), st))
              | (false, st) => (.ok (.If condition then_branch none), st))))))
termination_by structural fuel

/-- Parser::while_statement (parser.rs). -/
def Parser.while_statement (fuel : Nat) (st : PState) : Res ParseError Stmt × PState :=
  match fuel with
  | 0 => (.noFuel, st)
  | fuel + 1 =>
    pThen (Parser.consume st .LEFT_PAREN "Expect '(' after 'while'.") (fun _ st =>
      pThen (Parser.expression fuel st) (fun condition st =>
        pThen (Parser.consume st .RIGHT_PAREN "Expect ')' after condition.") (fun _ st =>
          pThen (Parser.statement fuel st) (fun body st =>
            (.ok (.While condition body), st)))))
termination_by structural fuel

/-- Parser::statement (parser.rs).  (`break` is consumed without requiring a
`;`, exactly as in the source.) -/
def Parser.statement (fuel : Nat) (st : PState) : Res ParseError Stmt × PState :=
  match fuel with
  | 0 => (.noFuel, st)
  | fuel + 1 =>
    pGet (Parser.match_token st [.PRINT]) st (fun b =>
      match b with
      | (true, st) => Parser.print_statement fuel st
      | (false, st) =>
        pGet (Parser.match_token st [.RETURN]) st (fun b =>
          match b with
          | (true, st) => Parser.return_statement fuel st
          | (false, st) =>
            pGet (Parser.match_token st [.LEFT_BRACE]) st (fun b =>
              match b with
              | (true, st) =>
                pThen (Parser.block fuel st) (fun stmts st => (.ok (.Block stmts), st))
              | (false, st) =>
                pGet (Parser.match_token st [.BREAK]) st (fun b =>
                  match b with
                  | (true, st) => (.ok .Break, st)
                  | (false, st) => Parser.expression_statement fuel st))))
termination_by structural fuel

/-- The declaration loop of Parser::block:
`while !check(RIGHT_BRACE) && !is_at_end { declaration()? }`. -/
def Parser.blockLoop (fuel : Nat) (st : PState) (acc : List Stmt) :
    Res ParseError (List Stmt) × PState :=
  match fuel with
  | 0 => (.noFuel, st)
  | fuel + 1 =>
    pGet (Parser.check st .RIGHT_BRACE) st (fun atBrace =>
      pGet (Parser.is_at_end st) st (fun atEnd =>
        if !atBrace && !atEnd then
          pThen (Parser.declaration fuel st) (fun d st =>
            Parser.blockLoop fuel st (acc ++ [d]))
        else (.ok acc, st)))
termination_by structural fuel

/-- Parser::block (parser.rs). -/
def Parser.block (fuel : Nat) (st : PState) : Res ParseError (List Stmt) × PState :=
  match fuel with
  | 0 => (.noFuel, st)
  | fuel + 1 =>
    pThen (Parser.blockLoop fuel st []) (fun stmts st =>
      pThen (Parser.consume st .RIGHT_BRACE "Expect '\x7d' after block.") (fun _ st =>
        (.ok stmts, st)))
termination_by structural fuel

/-- Parser::print_statement (parser.rs). -/
def Parser.print_statement (fuel : Nat) (st : PState) : Res ParseError Stmt × PState :=
  match fuel with
  | 0 => (.noFuel, st)
  | fuel + 1 =>
    pThen (Parser.expression fuel st) (fun value st =>
      pThen (Parser.consume st .SEMICOLON "Expect ';' after value.") (fun _ st =>
        (.ok (.Print value), st)))

/-- Parser::return_statement (parser.rs): the keyword is re-read via
`previous()`. -/
def Parser.return_statement (fuel : Nat) (st : PState) : Res ParseError Stmt × PState :=
  match fuel with
  | 0 => (.noFuel, st)
  | fuel + 1 =>
    pGet (Parser.previous st) st (fun keyword =>
      pThen
        (pGet (Parser.check st .SEMICOLON) st (fun atSemi =>
          if !atSemi then
            pThen (Parser.expression fuel st) (fun e st => (.ok (some e), st))
          else (.ok none, st))) (fun value st =>
        pThen (Parser.consume st .SEMICOLON "Expect ';' after return value.") (fun _ st =>
          (.ok (.Return keyword value), st))))

/-- Parser::expression_statement (parser.rs): an `Expr::Assign` at statement
level is rewritten into the statement form `Stmt::Assign`. -/
def Parser.expression_statement (fuel : Nat) (st : PState) :
    Res ParseError Stmt × PState :=
  match fuel with
  | 0 => (.noFuel, st)
  | fuel + 1 =>
    pThen (Parser.expression fuel st) (fun value st =>
      pThen (Parser.consume st .SEMICOLON "Expect ';' after value.") (fun _ st =>
        match value with
        | .Assign name v => (.ok (.Assign name v), st)
        | other => (.ok (.Expr other), st)))

/-- Parser::expression (parser.rs): the leading-binary-operator guard
(report, then skip to a fresh start), then `assignment`, whose error is also
reported to the sink before being propagated. -/
def Parser.expression (fuel : Nat) (st : PState) : Res ParseError Expr × PState :=
  match fuel with
  | 0 => (.noFuel, st)
  | fuel + 1 =>
    pThen
      (pGet (Parser.match_token st binary_operators) st (fun b =>
        match b with
        | (true, st) =>
          pGet (Parser.previous st) st (fun token =>
            let st := report st token.line
              ("Expression cannot start with " ++ token.lexeme)
            Parser.exprSkipLoop fuel st)
        | (false, st) => (.ok (), st))) (fun _ st =>
      match Parser.assignment fuel st with
      | (.ok e, st) => (.ok e, st)
      | (.error err, st) => (.error err, report st err.token.line err.message)
      | (.crashed, st) => (.crashed, st)
      | (.noFuel, st) => (.noFuel, st))
termination_by structural fuel

/-- Parser::assignment (parser.rs): right-associative; a `Variable` target
becomes `Assign`, a `Get` target becomes `Set`, anything else reports and
errors with "Invalid assignment target.". -/
def Parser.assignment (fuel : Nat) (st : PState) : Res ParseError Expr × PState :=
  match fuel with
  | 0 => (.noFuel, st)
  | fuel + 1 =>
    pThen (Parser.ternary fuel st) (fun expr st =>
      pGet (Parser.match_token st [.EQUAL]) st (fun b =>
        match b with
        | (true, st) =>
          pGet (Parser.previous st) st (fun equals =>
            pThen (Parser.assignment fuel st) (fun value st =>
              match expr with
              | .Variable name => (.ok (.Assign name value), st)
              | .Get gexpr gname => (.ok (.Set gexpr gname value), st)
              | _ =>
                let st := report st equals.line "Invalid assignment target."
                (.error ⟨equals, "Invalid assignment target."⟩, st)))
        | (false, st) => (.ok expr, st)))
termination_by structural fuel

/-- Parser::ternary (parser.rs). -/
def Parser.ternary (fuel : Nat) (st : PState) : Res ParseError Expr × PState :=
  match fuel with
  | 0 => (.noFuel, st)
  | fuel + 1 =>
    pThen (Parser.or fuel st) (fun expr st =>
      pGet (Parser.peek st) st (fun t =>
        if t.token_type == .QUESTION then
          pGet (Parser.advance st) st (fun p =>
            pThen (Parser.expression fuel p.2) (fun then_branch st =>
              pThen (Parser.consume st .COLON
                  "Expect ':' after then branch of ternary") (fun _ st =>
                pThen (Parser.expression fuel st) (fun else_branch st =>
                  (.ok (.Ternary expr then_branch else_branch), st)))))
        else (.ok expr, st)))
termination_by structural fuel

/-- Parser::or (parser.rs). -/
def Parser.or (fuel : Nat) (st : PState) : Res ParseError Expr × PState :=
  match fuel with
  | 0 => (.noFuel, st)
  | fuel + 1 =>
    pThen (Parser.and fuel st) (fun expr st => Parser.orLoop fuel st expr)
termination_by structural fuel

/-- The `while peek == OR` loop of Parser::or. -/
def Parser.orLoop (fuel : Nat) (st : PState) (expr : Expr) :
    Res ParseError Expr × PState :=
  match fuel with
  | 0 => (.noFuel, st)
  | fuel + 1 =>
    pGet (Parser.peek st) st (fun t =>
      if t.token_type == .OR then
        pGet (Parser.advance st) st (fun p =>
          pThen (Parser.and fuel p.2) (fun right st =>
            Parser.orLoop fuel st (.Logical expr p.1 right)))
      else (.ok expr, st))
termination_by structural fuel

/-- Parser::and (parser.rs). -/
def Parser.and (fuel : Nat) (st : PState) : Res ParseError Expr × PState :=
  match fuel with
  | 0 => (.noFuel, st)
  | fuel + 1 =>
    pThen (Parser.equality fuel st) (fun expr st => Parser.andLoop fuel st expr)
termination_by structural fuel

/-- The `while peek == AND` loop of Parser::and. -/
def Parser.andLoop (fuel : Nat) (st : PState) (expr : Expr) :
    Res ParseError Expr × PState :=
  match fuel with
  | 0 => (.noFuel, st)
  | fuel + 1 =>
    pGet (Parser.peek st) st (fun t =>
      if t.token_type == .AND then
        pGet (Parser.advance st) st (fun p =>
          pThen (Parser.equality fuel p.2) (fun right st =>
            Parser.andLoop fuel st (.Logical expr p.1 right)))
      else (.ok expr, st))
termination_by structural fuel

/-- Parser::equality (parser.rs). -/
def Parser.equality (fuel : Nat) (st : PState) : Res ParseError Expr × PState :=
  match fuel with
  | 0 => (.noFuel, st)
  | fuel + 1 =>
    pThen (Parser.comparison fuel st) (fun expr st => Parser.equalityLoop fuel st expr)
termination_by structural fuel

/-- The `!=` / `==` loop of Parser::equality. -/
def Parser.equalityLoop (fuel : Nat) (st : PState) (expr : Expr) :
    Res ParseError Expr × PState :=
  match fuel with
  | 0 => (.noFuel, st)
  | fuel + 1 =>
    pGet (Parser.peek st) st (fun t =>
      if t.token_type == .BANG_EQUAL || t.token_type == .EQUAL_EQUAL then
        pGet (Parser.advance st) st (fun p =>
          pThen (Parser.comparison fuel p.2) (fun right st =>
            Parser.equalityLoop fuel st (.Binary expr p.1 right)))
      else (.ok expr, st))
termination_by structural fuel

/-- Parser::comparison (parser.rs). -/
def Parser.comparison (fuel : Nat) (st : PState) : Res ParseError Expr × PState :=
  match fuel with
  | 0 => (.noFuel, st)
  | fuel + 1 =>
    pThen (Parser.term fuel st) (fun expr st => Parser.comparisonLoop fuel st expr)
termination_by structural fuel

/-- The `> >= < <=` loop of Parser::comparison. -/
def Parser.comparisonLoop (fuel : Nat) (st : PState) (expr : Expr) :
    Res ParseError Expr × PState :=
  match fuel with
  | 0 => (.noFuel, st)
  | fuel + 1 =>
    pGet (Parser.peek st) st (fun t =>
      if t.token_type == .GREATER || t.token_type == .GREATER_EQUAL ||
          t.token_type == .LESS || t.token_type == .LESS_EQUAL then
        pGet (Parser.advance st) st (fun p =>
          pThen (Parser.term fuel p.2) (fun right st =>
            Parser.comparisonLoop fuel st (.Binary expr p.1 right)))
      else (.ok expr, st))
termination_by structural fuel

/-- Parser::term (parser.rs). -/
def Parser.term (fuel : Nat) (st : PState) : Res ParseError Expr × PState :=
  match fuel with
  | 0 => (.noFuel, st)
  | fuel + 1 =>
    pThen (Parser.factor fuel st) (fun expr st => Parser.termLoop fuel st expr)
termination_by structural fuel

/-- The `+ -` loop of Parser::term. -/
def Parser.termLoop (fuel : Nat) (st : PState) (expr : Expr) :
    Res ParseError Expr × PState :=
  match fuel with
  | 0 => (.noFuel, st)
  | fuel + 1 =>
    pGet (Parser.peek st) st (fun t =>
      if t.token_type == .PLUS || t.token_type == .MINUS then
        pGet (Parser.advance st) st (fun p =>
          pThen (Parser.factor fuel p.2) (fun right st =>
            Parser.termLoop fuel st (.Binary expr p.1 right)))
      else (.ok expr, st))
termination_by structural fuel

/-- Parser::factor (parser.rs). -/
def Parser.factor (fuel : Nat) (st : PState) : Res ParseError Expr × PState :=
  match fuel with
  | 0 => (.noFuel, st)
  | fuel + 1 =>
    pThen (Parser.unary fuel st) (fun expr st => Parser.factorLoop fuel st expr)
termination_by structural fuel

/-- The `/ *` loop of Parser::factor. -/
def Parser.factorLoop (fuel : Nat) (st : PState) (expr : Expr) :
    Res ParseError Expr × PState :=
  match fuel with
  | 0 => (.noFuel, st)
  | fuel + 1 =>
    pGet (Parser.peek st) st (fun t =>
      if t.token_type == .SLASH || t.token_type == .STAR then
        pGet (Parser.advance st) st (fun p =>
          pThen (Parser.unary fuel p.2) (fun right st =>
            Parser.factorLoop fuel st (.Binary expr p.1 right)))
      else (.ok expr, st))
termination_by structural fuel

/-- Parser::unary (parser.rs). -/
def Parser.unary (fuel : Nat) (st : PState) : Res ParseError Expr × PState :=
  match fuel with
  | 0 => (.noFuel, st)
  | fuel + 1 =>
    pGet (Parser.peek st) st (fun t =>
      if t.token_type == .BANG || t.token_type == .MINUS then
        pGet (Parser.advance st) st (fun p =>
          pThen (Parser.unary fuel p.2) (fun right st =>
            (.ok (.Unary p.1 right), st)))
      else Parser.call fuel st)
termination_by structural fuel

/-- Parser::call (parser.rs). -/
def Parser.call (fuel : Nat) (st : PState) : Res ParseError Expr × PState :=
  match fuel with
  | 0 => (.noFuel, st)
  | fuel + 1 =>
    pThen (Parser.primary fuel st) (fun expr st => Parser.callLoop fuel st expr)
termination_by structural fuel

/-- The call/property loop of Parser::call: `(` starts an argument list,
`.` a property access, anything else exits. -/
def Parser.callLoop (fuel : Nat) (st : PState) (expr : Expr) :
    Res ParseError Expr × PState :=
  match fuel with
  | 0 => (.noFuel, st)
  | fuel + 1 =>
    pGet (Parser.match_token st [.LEFT_PAREN]) st (fun b =>
      match b with
      | (true, st) =>
        pThen (Parser.finish_call fuel st expr) (fun e st => Parser.callLoop fuel st e)
      | (false, st) =>
        pGet (Parser.match_token st [.DOT]) st (fun b2 =>
          match b2 with
          | (true, st) =>
            pThen (Parser.consume st .IDENTIFIER "Expect property name after .") (fun name st =>
              Parser.callLoop fuel st (.Get expr name))
          | (false, st) => (.ok expr, st)))
termination_by structural fuel

/-- The argument loop of Parser::finish_call: at most 255 arguments (the
violation is both reported to the sink and returned as a `ParseError`). -/
def Parser.argsLoop (fuel : Nat) (st : PState) (acc : List Expr) :
    Res ParseError (List Expr) × PState :=
  match fuel with
  | 0 => (.noFuel, st)
  | fuel + 1 =>
    if acc.length ≥ 255 then
      pGet (Parser.peek st) st (fun t =>
        let st := report st t.line "Can't have more than 255 arguments."
        (.error ⟨t, "Can't have more than 255 arguments."⟩, st))
    else
      pThen (Parser.expression fuel st) (fun e st =>
        pGet (Parser.match_token st [.COMMA]) st (fun b =>
          match b with
          | (true, st) => Parser.argsLoop fuel st (acc ++ [e])
          | (false, st) => (.ok (acc ++ [e]), st)))
termination_by structural fuel

/-- Parser::finish_call (parser.rs). -/
def Parser.finish_call (fuel : Nat) (st : PState) (callee : Expr) :
    Res ParseError Expr × PState :=
  match fuel with
  | 0 => (.noFuel, st)
  | fuel + 1 =>
    pThen
      (pGet (Parser.check st .RIGHT_PAREN) st (fun atParen =>
        if !atParen then Parser.argsLoop fuel st []
        else (.ok [], st))) (fun arguments st =>
      pThen (Parser.consume st .RIGHT_PAREN "Expect ')' after arguments.") (fun paren st =>
        (.ok (.Call callee paren arguments), st)))
termination_by structural fuel

/-- Parser::primary (parser.rs). -/
def Parser.primary (fuel : Nat) (st : PState) : Res ParseError Expr × PState :=
  match fuel with
  | 0 => (.noFuel, st)
  | fuel + 1 =>
    pGet (Parser.match_token st [.FALSE]) st (fun b =>
      match b with
      | (true, st) => pGet (Parser.previous st) st (fun t => (.ok (.Literal t), st))
      | (false, st) =>
        pGet (Parser.match_token st [.TRUE]) st (fun b =>
          match b with
          | (true, st) => pGet (Parser.previous st) st (fun t => (.ok (.Literal t), st))
          | (false, st) =>
            pGet (Parser.match_token st [.NIL]) st (fun b =>
              match b with
              | (true, st) => pGet (Parser.previous st) st (fun t => (.ok (.Literal t), st))
              | (false, st) =>
                pGet (Parser.match_token st [.NUMBER, .STRING]) st (fun b =>
                  match b with
                  | (true, st) =>
                    pGet (Parser.previous st) st (fun t => (.ok (.Literal t), st))
                  | (false, st) =>
                    pGet (Parser.match_token st [.IDENTIFIER]) st (fun b =>
                      match b with
                      | (true, st) =>
                        pGet (Parser.previous st) st (fun t => (.ok (.Variable t), st))
                      | (false, st) =>
                        pGet (Parser.match_token st [.LEFT_PAREN]) st (fun b =>
                          match b with
                          | (true, st) =>
                            pThen (Parser.expression fuel st) (fun e st =>
                              pThen (Parser.consume st .RIGHT_PAREN
                                  "Expect ')' after expression.") (fun _ st =>
                                (.ok (.Grouping e), st)))
                          | (false, st) =>
                            pGet (Parser.peek st) st (fun t =>
                              (.error ⟨t, "Expect expression."⟩, st))))))))
termination_by structural fuel
end

/-- Parser::parse (parser.rs) on a fresh `Parser::new(tokens)` (and sink). -/
def Parser.parse (fuel : Nat) (st : PState) : Res ParseError (List Stmt) × PState :=
  Parser.parseLoop fuel st []

/-- The parse loop itself never produces an error value: declaration errors
are caught, reported and skipped via `synchronize`. -/
theorem parseLoop_isError_false (fuel : Nat) :
    ∀ (st : PState) (acc : List Stmt), (Parser.parseLoop fuel st acc).1.isError = false := by
  induction fuel with
  | zero => intro st acc; rfl
  | succ n ih =>
    intro st acc
    simp only [Parser.parseLoop]
    split
    · rfl
    · rfl
    · split
      · exact ih _ _
      · split
        · exact ih _ _
        · rename_i e2 _
          exact e2.elim
        · rfl
        · rfl
      · rfl
      · rfl

/-- Counterexample for claim C10: the claim quantifies over every input
token sequence, but on the empty token vector (no `EOF`) `parse` does not
return `Ok` — `is_at_end` peeks `tokens[0]` and panics. -/
theorem c10_parse_crashes_on_empty_tokens :
    (Parser.parse 5 ⟨[], 0, []⟩).1 = .crashed := rfl

/-- Claim C10 as amended: the parser's top-level `parse` never returns an
error value to its caller — whenever it returns at all (it can panic on
token sequences lacking `EOF`, and the fuelled model can time out), the
result is `Ok` with the successfully parsed declarations, each failed
declaration having been reported to the diagnostic sink and skipped via
`synchronize`. -/
theorem c10_parse_never_returns_error (fuel : Nat) (st : PState) :
    (Parser.parse fuel st).1.isError = false :=
  parseLoop_isError_false fuel st []

/-- The token list the scanner produces for the source `print 6/3;` — note
the `SLASH` token's empty lexeme (`make_token(TokenType::SLASH,
String::new())`, scanner.rs). -/
def printDivTokens : List Token :=
  [Token.new .PRINT "print" 1, Token.new .NUMBER "6" 1, Token.new .SLASH "" 1,
   Token.new .NUMBER "3" 1, Token.new .SEMICOLON ";" 1, Token.new .EOF "" 1]

/-- The statement the parser builds from `printDivTokens`: a division whose
operator token carries the empty lexeme. -/
def printDivProgram : List Stmt :=
  [.Print (.Binary (.Literal (Token.new .NUMBER "6" 1)) (Token.new .SLASH "" 1)
    (.Literal (Token.new .NUMBER "3" 1)))]

/-- Claim C6: a `Binary` division of two Numbers with a nonzero divisor is
supposed to yield their quotient, so `print 6/3;` should print `2`.  It
cannot: the scanner emits every `SLASH` token with an *empty* lexeme, and
`interpret_expr` dispatches binary operators on `operator.lexeme`, so a
pipeline-built division never reaches the `"/"` arm (nor its zero-divisor
guard) — it falls into the catch-all arm and raises the runtime error
"Operands must be two numbers or two strings: 6 + 3" even though both
operands are Numbers and the divisor is `3`.  The three stages are evaluated
here end to end at the failing input of the code_bug verdict. -/
theorem c6_division_source_hits_catch_all :
    scan_tokens 20 "print 6/3;" = .ok printDivTokens ∧
    (Parser.parse 30 ⟨printDivTokens, 0, []⟩).1 = .ok printDivProgram ∧
    (runProgram 10 printDivProgram).1 =
      .error (InterpretError.new
        "Operands must be two numbers or two strings: 6 + 3" (Token.new .SLASH "" 1)) ∧
    (runProgram 10 printDivProgram).2.output = [] :=
  ⟨rfl, rfl, rfl, rfl⟩

/-- Sanity check of the parser embedding and of the recovery path of C10:
`print 1; var ; print 2;` yields `Ok` with the two print statements, the bad
declaration reported to the sink and skipped. -/
theorem parse_recovers_after_error :
    Parser.parse 30
      ⟨[Token.new .PRINT "print" 1, Token.new .NUMBER "1" 1,
        Token.new .SEMICOLON ";" 1, Token.new .VAR "var" 1,
        Token.new .SEMICOLON ";" 1, Token.new .PRINT "print" 1,
        Token.new .NUMBER "2" 1, Token.new .SEMICOLON ";" 1,
        Token.new .EOF "" 1], 0, []⟩ =
    (.ok [.Print (.Literal (Token.new .NUMBER "1" 1)),
          .Print (.Literal (Token.new .NUMBER "2" 1))],
     ⟨[Token.new .PRINT "print" 1, Token.new .NUMBER "1" 1,
       Token.new .SEMICOLON ";" 1, Token.new .VAR "var" 1,
       Token.new .SEMICOLON ";" 1, Token.new .PRINT "print" 1,
       Token.new .NUMBER "2" 1, Token.new .SEMICOLON ";" 1,
       Token.new .EOF "" 1], 8,
      [(1, "Expect variable name.")]⟩) := rfl

end SlowLox
